import Mathlib

/-!
A verification development for the honga RV64 emulator core.

The definitions below are a shallow embedding of the Rust sources:
`src/cpu.rs`, `src/bus/mod.rs`, `src/bus/memory.rs`, `src/bus/uart.rs`,
`src/exception.rs` and `src/interrupt.rs`.  Machine integers (`u64`, `u32`,
`u8`) are modelled as `Nat` with explicit reductions `% 2 ^ w` at the points
where the Rust types truncate or wrap; fallible operations return `Except`.
Byte buffers (`Vec<u8>`, register files, the CSR array) are modelled as total
functions from index to value; all claims stay inside the bounds within which
the Rust indexing does not panic.

The repository modules `csr.rs`, `bus/clint.rs`, `bus/plic.rs` and
`bus/virtio.rs` are not present under `src/`; the definitions that stand in
for them are marked `Modelled from the spec:` and follow the specification's
sections 4.1, 4.4, 4.5 and 4.6.
-/

namespace Honga

/-- Word modulus of 64-bit machine arithmetic. -/
def W64 : Nat := 2 ^ 64

/-- Pointwise update of a function-modelled array (`arr[i] = v`). -/
def upd (f : Nat → Nat) (i v : Nat) : Nat → Nat :=
  fun j => if j = i then v else f j

/-- Bitwise complement on 64 bits (`!x` on a `u64`). -/
def not64 (x : Nat) : Nat := (2 ^ 64 - 1) ^^^ (x % W64)

/-- `u64::wrapping_add`. -/
def wadd (a b : Nat) : Nat := (a + b) % W64

/-- `u64::wrapping_sub`. -/
def wsub (a b : Nat) : Nat := (a + (W64 - b % W64)) % W64

/-- `u64::wrapping_mul`. -/
def wmul (a b : Nat) : Nat := (a * b) % W64

/-- `u64::wrapping_shl`: the shift amount is masked to 6 bits. -/
def wshl (a s : Nat) : Nat := (a <<< (s % 64)) % W64

/-- `u64::wrapping_shr`: the shift amount is masked to 6 bits. -/
def wshr (a s : Nat) : Nat := (a % W64) >>> (s % 64)

/-- Truncate to the low `w` bits and sign-extend to 64 bits
(the Rust cast chains `as i8/i16/i32 ... as i64 as u64`). -/
def sext (w x : Nat) : Nat :=
  let v := x % 2 ^ w
  if v < 2 ^ (w - 1) then v else v + (W64 - 2 ^ w)

/-- Arithmetic shift right on the 64-bit pattern (`(x as i64).wrapping_shr s`). -/
def sra64 (x s : Nat) : Nat :=
  let v := x % W64
  let s' := s % 64
  if v < 2 ^ 63 then v >>> s' else v >>> s' + (W64 - 2 ^ (64 - s'))

/-- Arithmetic shift right on the low 32 bits, giving a 32-bit pattern
(`(x as i32).wrapping_shr s` before widening). -/
def sra32 (x s : Nat) : Nat :=
  let v := x % 2 ^ 32
  let s' := s % 32
  if v < 2 ^ 31 then v >>> s' else v >>> s' + (2 ^ 32 - 2 ^ (32 - s'))

/-- The signed value of a 64-bit pattern (`x as i64`). -/
def toI64 (x : Nat) : Int :=
  if x % W64 < 2 ^ 63 then (x % W64 : Int) else (x % W64 : Int) - (W64 : Int)

/-! ## Address map and IRQ constants

`MEMORY_SIZE`/`MEMORY_BASE` are from `src/bus/memory.rs` and the UART
constants from `src/bus/uart.rs`.  `clint.rs` and `plic.rs` are absent from
`src/`, so their windows are `Modelled from the spec:` section 4.1 gives the
bases and sizes, and section 4.5 places `sclaim` inside the PLIC window (its
exact offset is not fixed by the spec; only its membership in the window
matters to the code under verification). -/

def MEMORY_SIZE : Nat := 128 * 1024 * 1024
def MEMORY_BASE : Nat := 0x80000000
/-- Modelled from the spec: `clint.rs` is absent; base from the section 4.1 table. -/
def CLINT_BASE : Nat := 0x2000000
/-- Modelled from the spec: `clint.rs` is absent; size from the section 4.1 table. -/
def CLINT_SIZE : Nat := 0x10000
/-- Modelled from the spec: `plic.rs` is absent; base from the section 4.1 table. -/
def PLIC_BASE : Nat := 0xc000000
/-- Modelled from the spec: `plic.rs` is absent; size from the section 4.1 table. -/
def PLIC_SIZE : Nat := 0x4000000
def UART_BASE : Nat := 0x10000000
def UART_SIZE : Nat := 0x100
/-- Modelled from the spec: `virtio.rs` is absent; base from the section 4.1 table. -/
def VIRTIO_BASE : Nat := 0x10001000
/-- Modelled from the spec: `virtio.rs` is absent; size from the section 4.1 table. -/
def VIRTIO_SIZE : Nat := 0x1000
def UART_IRQ : Nat := 10
/-- Modelled from the spec: `virtio.rs` is absent; section 4.9 gives VIRTIO_IRQ = 1. -/
def VIRTIO_IRQ : Nat := 1
/-- Modelled from the spec: `plic.rs` is absent; section 4.5 places `sclaim` in the
PLIC window (only window membership matters to the verified code). -/
def PLIC_SCLAIM : Nat := PLIC_BASE + 0x201004

/-- Receive holding register (`uart.rs`). -/
def UART_RHR : Nat := UART_BASE + 0
/-- Transmit holding register (`uart.rs`). -/
def UART_THR : Nat := UART_BASE + 0
/-- Line status register (`uart.rs`). -/
def UART_LSR : Nat := UART_BASE + 5
/-- The receiver-ready bit of LSR (`uart.rs`). -/
def UART_LSR_RX : Nat := 1
/-- The transmitter-empty bit of LSR (`uart.rs`). -/
def UART_LSR_TX : Nat := 1 <<< 5

/-! ## CSR addresses

Modelled from the spec: `csr.rs` is absent from `src/`.  Section 4.6
describes the CSR file as "4096 64-bit words ... indexed by the 12-bit CSR
address" and names the registers; the addresses are the architectural
RISC-V encodings of those names. -/

/-- Modelled from the spec: `csr.rs` is absent; the architectural address of `mstatus`. -/
def MSTATUS : Nat := 0x300
/-- Modelled from the spec: `csr.rs` is absent; the architectural address of `medeleg`. -/
def MEDELEG : Nat := 0x302
/-- Modelled from the spec: `csr.rs` is absent; the architectural address of `mideleg`. -/
def MIDELEG : Nat := 0x303
/-- Modelled from the spec: `csr.rs` is absent; the architectural address of `mie`. -/
def MIE : Nat := 0x304
/-- Modelled from the spec: `csr.rs` is absent; the architectural address of `mtvec`. -/
def MTVEC : Nat := 0x305
/-- Modelled from the spec: `csr.rs` is absent; the architectural address of `mepc`. -/
def MEPC : Nat := 0x341
/-- Modelled from the spec: `csr.rs` is absent; the architectural address of `mcause`. -/
def MCAUSE : Nat := 0x342
/-- Modelled from the spec: `csr.rs` is absent; the architectural address of `mtval`. -/
def MTVAL : Nat := 0x343
/-- Modelled from the spec: `csr.rs` is absent; the architectural address of `mip`. -/
def MIP : Nat := 0x344
/-- Modelled from the spec: `csr.rs` is absent; the architectural address of `sstatus`. -/
def SSTATUS : Nat := 0x100
/-- Modelled from the spec: `csr.rs` is absent; the architectural address of `sie`. -/
def SIE : Nat := 0x104
/-- Modelled from the spec: `csr.rs` is absent; the architectural address of `stvec`. -/
def STVEC : Nat := 0x105
/-- Modelled from the spec: `csr.rs` is absent; the architectural address of `sepc`. -/
def SEPC : Nat := 0x141
/-- Modelled from the spec: `csr.rs` is absent; the architectural address of `scause`. -/
def SCAUSE : Nat := 0x142
/-- Modelled from the spec: `csr.rs` is absent; the architectural address of `stval`. -/
def STVAL : Nat := 0x143
/-- Modelled from the spec: `csr.rs` is absent; the architectural address of `sip`. -/
def SIP : Nat := 0x144
/-- Modelled from the spec: `csr.rs` is absent; the architectural address of `satp`. -/
def SATP : Nat := 0x180

/-! MIP fields (`cpu.rs` lines 8-14). -/

def MIP_SSIP : Nat := 1 <<< 1
def MIP_MSIP : Nat := 1 <<< 3
def MIP_STIP : Nat := 1 <<< 5
def MIP_MTIP : Nat := 1 <<< 7
def MIP_SEIP : Nat := 1 <<< 9
def MIP_MEIP : Nat := 1 <<< 11

/-- The page size for the virtual memory system (`cpu.rs`). -/
def PAGE_SIZE : Nat := 4096

/-- Privileged mode (`cpu.rs`): `User = 0`, `Supervisor = 1`, `Machine = 3`. -/
inductive Mode where
  | user
  | supervisor
  | machine
deriving DecidableEq

/-- The `repr(u8)` discriminant of `Mode`. -/
def Mode.toNat : Mode → Nat
  | .user => 0
  | .supervisor => 1
  | .machine => 3

/-- Access type of a memory access (`cpu.rs`). -/
inductive AccessType where
  | instruction
  | load
  | store
deriving DecidableEq

/-- Exceptions (`exception.rs`); `repr(u64)` discriminants are sequential
from 0 in declaration order. -/
inductive Exception where
  | instructionAddressMisaligned
  | instructionAccessFault
  | illegalInstruction
  | breakpoint
  | loadAddressMisaligned
  | loadAccessFault
  | storeAMOAddressMisaligned
  | storeAMOAccessFault
  | environmentCallFromUMode
  | environmentCallFromSMode
  | environmentCallFromMMode
  | instructionPageFault
  | loadPageFault
  | storeAMOPageFault
deriving DecidableEq

/-- `*self as u64` on an `Exception`. -/
def Exception.code : Exception → Nat
  | .instructionAddressMisaligned => 0
  | .instructionAccessFault => 1
  | .illegalInstruction => 2
  | .breakpoint => 3
  | .loadAddressMisaligned => 4
  | .loadAccessFault => 5
  | .storeAMOAddressMisaligned => 6
  | .storeAMOAccessFault => 7
  | .environmentCallFromUMode => 8
  | .environmentCallFromSMode => 9
  | .environmentCallFromMMode => 10
  | .instructionPageFault => 11
  | .loadPageFault => 12
  | .storeAMOPageFault => 13

/-- Interrupts (`interrupt.rs`) with their explicit `repr(u64)` discriminants. -/
inductive Interrupt where
  | userSoftwareInterrupt
  | supervisorSoftwareInterrupt
  | machineSoftwareInterrupt
  | userTimerInterrupt
  | supervisorTimerInterrupt
  | machineTimerInterrupt
  | userExternalInterrupt
  | supervisorExternalInterrupt
  | machineExternalInterrupt
deriving DecidableEq

/-- `*self as u64` on an `Interrupt`. -/
def Interrupt.code : Interrupt → Nat
  | .userSoftwareInterrupt => 0
  | .supervisorSoftwareInterrupt => 1
  | .machineSoftwareInterrupt => 3
  | .userTimerInterrupt => 4
  | .supervisorTimerInterrupt => 5
  | .machineTimerInterrupt => 7
  | .userExternalInterrupt => 8
  | .supervisorExternalInterrupt => 9
  | .machineExternalInterrupt => 11

/-! ## RAM (`src/bus/memory.rs`) -/

/-- Random-access memory: the 128 MiB `Vec<u8>` as a function from byte
index to byte value. -/
structure Memory where
  data : Nat → Nat

def Memory.load_8bits (m : Memory) (address : Nat) : Nat :=
  let index := address - MEMORY_BASE
  m.data index

def Memory.load_16bits (m : Memory) (address : Nat) : Nat :=
  let index := address - MEMORY_BASE
  m.data index ||| (m.data (index + 1) <<< 8)

def Memory.load_32bits (m : Memory) (address : Nat) : Nat :=
  let index := address - MEMORY_BASE
  m.data index ||| (m.data (index + 1) <<< 8) ||| (m.data (index + 2) <<< 16) |||
    (m.data (index + 3) <<< 24)

def Memory.load_64bits (m : Memory) (address : Nat) : Nat :=
  let index := address - MEMORY_BASE
  m.data index ||| (m.data (index + 1) <<< 8) ||| (m.data (index + 2) <<< 16) |||
    (m.data (index + 3) <<< 24) ||| (m.data (index + 4) <<< 32) |||
    (m.data (index + 5) <<< 40) ||| (m.data (index + 6) <<< 48) |||
    (m.data (index + 7) <<< 56)

def Memory.store_8bits (m : Memory) (address value : Nat) : Memory :=
  let index := address - MEMORY_BASE
  { m with data := upd m.data index (value % 256) }

def Memory.store_16bits (m : Memory) (address value : Nat) : Memory :=
  let index := address - MEMORY_BASE
  { m with data := upd (upd m.data index (value &&& 0xff)) (index + 1) ((value >>> 8) &&& 0xff) }

def Memory.store_32bits (m : Memory) (address value : Nat) : Memory :=
  let index := address - MEMORY_BASE
  let d0 := upd m.data index (value &&& 0xff)
  let d1 := upd d0 (index + 1) ((value >>> 8) &&& 0xff)
  let d2 := upd d1 (index + 2) ((value >>> 16) &&& 0xff)
  let d3 := upd d2 (index + 3) ((value >>> 24) &&& 0xff)
  { m with data := d3 }

def Memory.store_64bits (m : Memory) (address value : Nat) : Memory :=
  let index := address - MEMORY_BASE
  let d0 := upd m.data index (value &&& 0xff)
  let d1 := upd d0 (index + 1) ((value >>> 8) &&& 0xff)
  let d2 := upd d1 (index + 2) ((value >>> 16) &&& 0xff)
  let d3 := upd d2 (index + 3) ((value >>> 24) &&& 0xff)
  let d4 := upd d3 (index + 4) ((value >>> 32) &&& 0xff)
  let d5 := upd d4 (index + 5) ((value >>> 40) &&& 0xff)
  let d6 := upd d5 (index + 6) ((value >>> 48) &&& 0xff)
  let d7 := upd d6 (index + 7) ((value >>> 56) &&& 0xff)
  { m with data := d7 }

/-- `Memory::load`: dispatch on the size in bits. -/
def Memory.load (m : Memory) (address size : Nat) : Except Exception Nat :=
  if size = 8 then .ok (m.load_8bits address)
  else if size = 16 then .ok (m.load_16bits address)
  else if size = 32 then .ok (m.load_32bits address)
  else if size = 64 then .ok (m.load_64bits address)
  else .error .loadAddressMisaligned

/-- `Memory::store`: dispatch on the size in bits.  Note that the source's
fall-through arm returns `Exception::LoadAddressMisaligned` (memory.rs
line 37), not the store-side exception. -/
def Memory.store (m : Memory) (address size value : Nat) : Except Exception Memory :=
  if size = 8 then .ok (m.store_8bits address value)
  else if size = 16 then .ok (m.store_16bits address value)
  else if size = 32 then .ok (m.store_32bits address value)
  else if size = 64 then .ok (m.store_64bits address value)
  else .error .loadAddressMisaligned

/-! ## UART (`src/bus/uart.rs`)

The device state is the 256-byte register array behind the mutex, indexed by
offset from `UART_BASE`, and the one-shot interrupt flag.  The stdin reader
thread and the condition variable are host-side input plumbing outside the
embedding; `stdout` output in `store` is likewise external. -/

structure Uart where
  regs : Nat → Nat
  interrupt : Bool

/-- `Uart::is_interrupting`: return the pending flag and clear it (the
atomic `swap(false)`). -/
def Uart.is_interrupting (u : Uart) : Bool × Uart :=
  (u.interrupt, { u with interrupt := false })

/-- `Device::load` for the UART.  A read from RHR clears LSR.RX and returns
the held byte; only 8-bit accesses are accepted. -/
def Uart.load (u : Uart) (addr size : Nat) : Except Exception (Nat × Uart) :=
  if size = 8 then
    if addr = UART_RHR then
      let lsrIdx := UART_LSR - UART_BASE
      let u' := { u with regs := upd u.regs lsrIdx (u.regs lsrIdx &&& (255 ^^^ UART_LSR_RX)) }
      .ok (u'.regs 0, u')
    else .ok (u.regs (addr - UART_BASE), u)
  else .error .loadAccessFault

/-- `Device::store` for the UART.  A write to THR goes to stdout (external);
other offsets update the register byte; only 8-bit accesses are accepted. -/
def Uart.store (u : Uart) (addr size value : Nat) : Except Exception Uart :=
  if size = 8 then
    if addr = UART_THR then .ok u
    else .ok { u with regs := upd u.regs (addr - UART_BASE) (value % 256) }
  else .error .storeAMOAccessFault

/-! ## CLINT and PLIC

Modelled from the spec: `bus/clint.rs` and `bus/plic.rs` are absent from
`src/`.  Section 4.5: the CLINT exposes `msip`, `mtimecmp`, `mtime` as
memory-mapped 64-bit registers; the PLIC exposes `priority`, `pending`,
`senable`, `spriority`, `sclaim`, and the trap path writes the raised IRQ
into `sclaim` with a 32-bit store.  The PLIC registers are kept as a map
from absolute address to 32-bit value; accesses of an unsupported size
produce the access faults of spec section 7. -/

/-- Modelled from the spec: `clint.rs` is absent; section 4.5's `msip`,
`mtimecmp`, `mtime` registers. -/
structure Clint where
  msip : Nat
  mtimecmp : Nat
  mtime : Nat

/-- Modelled from the spec: the standard CLINT register offsets. -/
def CLINT_MSIP : Nat := CLINT_BASE
def CLINT_MTIMECMP : Nat := CLINT_BASE + 0x4000
def CLINT_MTIME : Nat := CLINT_BASE + 0xbff8

/-- Modelled from the spec: 64-bit reads of the three CLINT registers. -/
def Clint.load (c : Clint) (addr size : Nat) : Except Exception Nat :=
  if size = 64 then
    if addr = CLINT_MSIP then .ok c.msip
    else if addr = CLINT_MTIMECMP then .ok c.mtimecmp
    else if addr = CLINT_MTIME then .ok c.mtime
    else .error .loadAccessFault
  else .error .loadAccessFault

/-- Modelled from the spec: 64-bit writes of the three CLINT registers. -/
def Clint.store (c : Clint) (addr size value : Nat) : Except Exception Clint :=
  if size = 64 then
    if addr = CLINT_MSIP then .ok { c with msip := value % W64 }
    else if addr = CLINT_MTIMECMP then .ok { c with mtimecmp := value % W64 }
    else if addr = CLINT_MTIME then .ok { c with mtime := value % W64 }
    else .error .storeAMOAccessFault
  else .error .storeAMOAccessFault

/-- Modelled from the spec: `plic.rs` is absent; the PLIC registers kept as a
map from absolute address to 32-bit value. -/
structure Plic where
  regs : Nat → Nat

/-- Modelled from the spec: 32-bit PLIC register reads. -/
def Plic.load (p : Plic) (addr size : Nat) : Except Exception Nat :=
  if size = 32 then .ok (p.regs addr) else .error .loadAccessFault

/-- Modelled from the spec: 32-bit PLIC register writes (`sclaim` among them). -/
def Plic.store (p : Plic) (addr size value : Nat) : Except Exception Plic :=
  if size = 32 then .ok { p with regs := upd p.regs addr (value % 2 ^ 32) }
  else .error .storeAMOAccessFault

/-! ## VirtIO block device

Modelled from the spec: `bus/virtio.rs` is absent from `src/`.  Section 4.4:
the legacy MMIO layout exposes magic, version, device-id = 2, queue-num-max,
queue-num, queue-pfn, queue-notify and status; a write to queue-notify
latches the one-shot interrupt flag, and `is_interrupting` consumes it.
The disk image is a byte buffer. -/

/-- Modelled from the spec: `virtio.rs` is absent; section 4.4's device state —
queue registers, status, the one-shot interrupt latch and the disk image. -/
structure Virtio where
  queue_num : Nat
  queue_pfn : Nat
  status : Nat
  interrupt : Bool
  image : Nat → Nat

/-- Modelled from the spec: `is_interrupting` consumes and returns the flag. -/
def Virtio.is_interrupting (v : Virtio) : Bool × Virtio :=
  (v.interrupt, { v with interrupt := false })

/-- Modelled from the spec: 32-bit reads of the legacy MMIO layout (magic,
version, device-id = 2, queue-num-max, queue-num, queue-pfn, status). -/
def Virtio.load (v : Virtio) (addr size : Nat) : Except Exception Nat :=
  if size = 32 then
    let offset := addr - VIRTIO_BASE
    if offset = 0x0 then .ok 0x74726976
    else if offset = 0x4 then .ok 0x1
    else if offset = 0x8 then .ok 0x2
    else if offset = 0x34 then .ok 0x8
    else if offset = 0x38 then .ok v.queue_num
    else if offset = 0x40 then .ok v.queue_pfn
    else if offset = 0x70 then .ok v.status
    else .ok 0
  else .error .loadAccessFault

/-- Modelled from the spec: 32-bit writes; a write to queue-notify (offset
0x50) latches the interrupt flag. -/
def Virtio.store (v : Virtio) (addr size value : Nat) : Except Exception Virtio :=
  if size = 32 then
    let offset := addr - VIRTIO_BASE
    if offset = 0x38 then .ok { v with queue_num := value % 2 ^ 32 }
    else if offset = 0x40 then .ok { v with queue_pfn := value % 2 ^ 32 }
    else if offset = 0x50 then .ok { v with interrupt := true }
    else if offset = 0x70 then .ok { v with status := value % 2 ^ 32 }
    else .ok v
  else .error .storeAMOAccessFault

/-! ## System bus (`src/bus/mod.rs`) -/

structure Bus where
  clint : Clint
  memory : Memory
  plic : Plic
  uart : Uart
  virtio : Virtio

/-- `Bus::load`: route by the fixed MMIO windows, RAM last.  The UART read
may update device state (the RHR side effect), so the bus is returned too. -/
def Bus.load (b : Bus) (addr size : Nat) : Except Exception (Nat × Bus) :=
  if CLINT_BASE ≤ addr ∧ addr < CLINT_BASE + CLINT_SIZE then
    (b.clint.load addr size).map (fun v => (v, b))
  else if PLIC_BASE ≤ addr ∧ addr < PLIC_BASE + PLIC_SIZE then
    (b.plic.load addr size).map (fun v => (v, b))
  else if UART_BASE ≤ addr ∧ addr < UART_BASE + UART_SIZE then
    (b.uart.load addr size).map (fun vu => (vu.1, { b with uart := vu.2 }))
  else if VIRTIO_BASE ≤ addr ∧ addr < VIRTIO_BASE + VIRTIO_SIZE then
    (b.virtio.load addr size).map (fun v => (v, b))
  else if MEMORY_BASE ≤ addr then
    (b.memory.load addr size).map (fun v => (v, b))
  else .error .loadAccessFault

/-- `Bus::store`: route by the fixed MMIO windows, RAM last. -/
def Bus.store (b : Bus) (addr size value : Nat) : Except Exception Bus :=
  if CLINT_BASE ≤ addr ∧ addr < CLINT_BASE + CLINT_SIZE then
    (b.clint.store addr size value).map (fun c => { b with clint := c })
  else if PLIC_BASE ≤ addr ∧ addr < PLIC_BASE + PLIC_SIZE then
    (b.plic.store addr size value).map (fun p => { b with plic := p })
  else if UART_BASE ≤ addr ∧ addr < UART_BASE + UART_SIZE then
    (b.uart.store addr size value).map (fun u => { b with uart := u })
  else if VIRTIO_BASE ≤ addr ∧ addr < VIRTIO_BASE + VIRTIO_SIZE then
    (b.virtio.store addr size value).map (fun v => { b with virtio := v })
  else if MEMORY_BASE ≤ addr then
    (b.memory.store addr size value).map (fun m => { b with memory := m })
  else .error .storeAMOAccessFault

/-! ## The CPU (`src/cpu.rs`) -/

structure Cpu where
  regs : Nat → Nat
  pc : Nat
  bus : Bus
  csr : Nat → Nat
  mode : Mode
  enable_paging : Bool
  page_table : Nat

/-- `Cpu::load_csr`: reading `sie` returns `mie & mideleg`; every other
address reads its own slot. -/
def Cpu.load_csr (cpu : Cpu) (address : Nat) : Nat :=
  if address = SIE then cpu.csr MIE &&& cpu.csr MIDELEG
  else cpu.csr address

/-- `Cpu::store_csr`: writing `sie` updates the delegated bits of `mie`;
every other address writes its own slot. -/
def Cpu.store_csr (cpu : Cpu) (address value : Nat) : Cpu :=
  if address = SIE then
    let mie := (cpu.csr MIE &&& not64 (cpu.csr MIDELEG)) ||| (value &&& cpu.csr MIDELEG)
    { cpu with csr := upd cpu.csr MIE mie }
  else { cpu with csr := upd cpu.csr address value }

/-- `Cpu::update_paging`: after a CSR write to `satp`, re-derive the page
table base and the paging flag. -/
def Cpu.update_paging (cpu : Cpu) (csr_addr : Nat) : Cpu :=
  if csr_addr ≠ SATP then cpu
  else
    let cpu := { cpu with page_table := (cpu.load_csr SATP &&& (1 <<< 44 - 1)) * PAGE_SIZE }
    if cpu.load_csr SATP >>> 60 = 8 then { cpu with enable_paging := true }
    else { cpu with enable_paging := false }

/-- The page fault matching the access type (`translate`'s three match arms). -/
def ptFault : AccessType → Exception
  | .instruction => .instructionPageFault
  | .load => .loadPageFault
  | .store => .storeAMOPageFault

/-- The loop of `Cpu::translate`: at level `i`, load the PTE at
`a + vpn[i]*8`, fault on an invalid entry, stop at a leaf (`R` or `X` set),
otherwise descend to `pte.ppn * PAGE_SIZE`; running past level 0 faults.
Returns the leaf PTE with its level.  Bus loads may update device state, so
the CPU is threaded through. -/
def Cpu.pt_walk (acc : AccessType) (vpn : Nat → Nat) :
    Cpu → Nat → Nat → (Except Exception (Nat × Nat)) × Cpu
  | cpu, a, i =>
    match cpu.bus.load (a + vpn i * 8) 64 with
    | .error e => (.error e, cpu)
    | .ok (pte, b) =>
      let cpu := { cpu with bus := b }
      let v := pte &&& 1
      let r := (pte >>> 1) &&& 1
      let w := (pte >>> 2) &&& 1
      let x := (pte >>> 3) &&& 1
      if v = 0 ∨ (r = 0 ∧ w = 1) then (.error (ptFault acc), cpu)
      else if r = 1 ∨ x = 1 then (.ok (pte, i), cpu)
      else
        match i with
        | 0 => (.error (ptFault acc), cpu)
        | i' + 1 =>
          Cpu.pt_walk acc vpn cpu (((pte >>> 10) &&& 0x0fffffffffff) * PAGE_SIZE) i'

/-- The `vpn` array of `Cpu::translate`: the three 9-bit virtual page
number components of a 39-bit address. -/
def sv39_vpn (addr : Nat) : Nat → Nat := fun i =>
  if i = 0 then (addr >>> 12) &&& 0x1ff
  else if i = 1 then (addr >>> 21) &&& 0x1ff
  else (addr >>> 30) &&& 0x1ff

/-- `Cpu::translate`: identity when paging is disabled, otherwise the Sv39
walk from level 2.  The current privilege mode is not consulted. -/
def Cpu.translate (cpu : Cpu) (addr : Nat) (access_type : AccessType) :
    (Except Exception Nat) × Cpu :=
  if cpu.enable_paging = false then (.ok addr, cpu)
  else
    let vpn : Nat → Nat := sv39_vpn addr
    match Cpu.pt_walk access_type vpn cpu cpu.page_table 2 with
    | (.error e, cpu) => (.error e, cpu)
    | (.ok (pte, i), cpu) =>
      let ppn : Nat → Nat := fun j =>
        if j = 0 then (pte >>> 10) &&& 0x1ff
        else if j = 1 then (pte >>> 19) &&& 0x1ff
        else (pte >>> 28) &&& 0x03ffffff
      let offset := addr &&& 0xfff
      if i = 0 then (.ok ((((pte >>> 10) &&& 0x0fffffffffff) <<< 12) ||| offset), cpu)
      else if i = 1 then
        (.ok ((ppn 2 <<< 30) ||| (ppn 1 <<< 21) ||| (vpn 0 <<< 12) ||| offset), cpu)
      else if i = 2 then
        (.ok ((ppn 2 <<< 30) ||| (vpn 1 <<< 21) ||| (vpn 0 <<< 12) ||| offset), cpu)
      else (.error (ptFault access_type), cpu)

/-- `Cpu::load`: translate as a Load access, then read through the bus. -/
def Cpu.load (cpu : Cpu) (addr size : Nat) : (Except Exception Nat) × Cpu :=
  match cpu.translate addr .load with
  | (.error e, cpu) => (.error e, cpu)
  | (.ok p_addr, cpu) =>
    match cpu.bus.load p_addr size with
    | .error e => (.error e, cpu)
    | .ok (v, b) => (.ok v, { cpu with bus := b })

/-- `Cpu::store`: translate as a Store access, then write through the bus. -/
def Cpu.store (cpu : Cpu) (addr size value : Nat) : (Option Exception) × Cpu :=
  match cpu.translate addr .store with
  | (.error e, cpu) => (some e, cpu)
  | (.ok p_addr, cpu) =>
    match cpu.bus.store p_addr size value with
    | .error e => (some e, cpu)
    | .ok b => (none, { cpu with bus := b })

/-- `Cpu::fetch`: translate `pc` as an Instruction access and load 32 bits;
a failing bus load becomes `InstructionAccessFault`. -/
def Cpu.fetch (cpu : Cpu) : (Except Exception Nat) × Cpu :=
  match cpu.translate cpu.pc .instruction with
  | (.error e, cpu) => (.error e, cpu)
  | (.ok p_pc, cpu) =>
    match cpu.bus.load p_pc 32 with
    | .error _ => (.error .instructionAccessFault, cpu)
    | .ok (v, b) => (.ok (v % 2 ^ 32), { cpu with bus := b })

/-- `self.regs[r] = v`. -/
def Cpu.setReg (cpu : Cpu) (r v : Nat) : Cpu := { cpu with regs := upd cpu.regs r v }

/-- `self.pc = v`. -/
def Cpu.setPc (cpu : Cpu) (v : Nat) : Cpu := { cpu with pc := v }

/-! ## `Cpu::decode_execute` (`cpu.rs` lines 333-832)

The single Rust match is factored into one definition per opcode; the
decoded fields and the order of effects are those of the source.  Each
helper returns the updated CPU and `some e` where the source returns
`Err(e)` (partial updates made before an early return are kept, as the
`&mut self` mutations are). -/

/-- Opcode `0x03`, the loads: LB/LH/LW/LD sign-extend, LBU/LHU/LWU do not. -/
def execLoad (cpu : Cpu) (inst rd rs1 funct3 : Nat) : Cpu × Option Exception :=
  let imm := sra64 (sext 32 inst) 20
  let address := wadd (cpu.regs rs1) imm
  if funct3 = 0x0 then
    match cpu.load address 8 with
    | (.error e, cpu) => (cpu, some e)
    | (.ok value, cpu) => (cpu.setReg rd (sext 8 value), none)
  else if funct3 = 0x1 then
    match cpu.load address 16 with
    | (.error e, cpu) => (cpu, some e)
    | (.ok value, cpu) => (cpu.setReg rd (sext 16 value), none)
  else if funct3 = 0x2 then
    match cpu.load address 32 with
    | (.error e, cpu) => (cpu, some e)
    | (.ok value, cpu) => (cpu.setReg rd (sext 32 value), none)
  else if funct3 = 0x3 then
    match cpu.load address 64 with
    | (.error e, cpu) => (cpu, some e)
    | (.ok value, cpu) => (cpu.setReg rd value, none)
  else if funct3 = 0x4 then
    match cpu.load address 8 with
    | (.error e, cpu) => (cpu, some e)
    | (.ok value, cpu) => (cpu.setReg rd value, none)
  else if funct3 = 0x5 then
    match cpu.load address 16 with
    | (.error e, cpu) => (cpu, some e)
    | (.ok value, cpu) => (cpu.setReg rd value, none)
  else if funct3 = 0x6 then
    match cpu.load address 32 with
    | (.error e, cpu) => (cpu, some e)
    | (.ok value, cpu) => (cpu.setReg rd value, none)
  else (cpu, some .illegalInstruction)

/-- Opcode `0x13`, OP-IMM.  The fall-through arms of the inner shift match
and of the funct3 match do nothing (the source's `_ => ()`). -/
def execOpImm (cpu : Cpu) (inst rd rs1 funct3 funct7 : Nat) : Cpu × Option Exception :=
  let imm := sra64 (sext 32 (inst &&& 0xfff00000)) 20
  let shamt := imm &&& 0x3f
  if funct3 = 0x0 then (cpu.setReg rd (wadd (cpu.regs rs1) imm), none)
  else if funct3 = 0x1 then (cpu.setReg rd ((cpu.regs rs1 <<< shamt) % W64), none)
  else if funct3 = 0x2 then
    (cpu.setReg rd (if toI64 (cpu.regs rs1) < toI64 imm then 1 else 0), none)
  else if funct3 = 0x3 then (cpu.setReg rd (if cpu.regs rs1 < imm then 1 else 0), none)
  else if funct3 = 0x4 then (cpu.setReg rd (cpu.regs rs1 ^^^ imm), none)
  else if funct3 = 0x5 then
    if funct7 >>> 1 = 0x00 then (cpu.setReg rd (wshr (cpu.regs rs1) shamt), none)
    else if funct7 >>> 1 = 0x10 then (cpu.setReg rd (sra64 (cpu.regs rs1) shamt), none)
    else (cpu, none)
  else if funct3 = 0x6 then (cpu.setReg rd (cpu.regs rs1 ||| imm), none)
  else if funct3 = 0x7 then (cpu.setReg rd (cpu.regs rs1 &&& imm), none)
  else (cpu, none)

/-- Opcode `0x17`, AUIPC. -/
def execAuipc (cpu : Cpu) (inst rd : Nat) : Cpu × Option Exception :=
  let imm := sext 32 (inst &&& 0xfffff000)
  (cpu.setReg rd (wadd (wsub cpu.pc 4) imm), none)

/-- Opcode `0x1b`, OP-IMM-32: results are sign-extended from 32 bits. -/
def execOpImm32 (cpu : Cpu) (inst rd rs1 funct3 funct7 : Nat) : Cpu × Option Exception :=
  let imm := sra64 (sext 32 inst) 20
  let shamnt := imm &&& 0x1f
  if funct3 = 0x0 then (cpu.setReg rd (sext 32 (wadd (cpu.regs rs1) imm)), none)
  else if funct3 = 0x1 then (cpu.setReg rd (sext 32 (wshl (cpu.regs rs1) shamnt)), none)
  else if funct3 = 0x5 then
    if funct7 = 0x00 then
      (cpu.setReg rd (sext 32 ((cpu.regs rs1 % 2 ^ 32) >>> (shamnt % 32))), none)
    else if funct7 = 0x20 then (cpu.setReg rd (sext 32 (sra32 (cpu.regs rs1) shamnt)), none)
    else (cpu, some .illegalInstruction)
  else (cpu, some .illegalInstruction)

/-- Opcode `0x23`, the stores SB/SH/SW/SD; the fall-through arm does
nothing. -/
def execStore (cpu : Cpu) (inst rs1 rs2 funct3 : Nat) : Cpu × Option Exception :=
  let imm := (sra64 (sext 32 (inst &&& 0xfe000000)) 20) ||| ((inst >>> 7) &&& 0x1f)
  let address := wadd (cpu.regs rs1) imm
  if funct3 = 0x0 then
    match cpu.store address 8 (cpu.regs rs2) with
    | (some e, cpu) => (cpu, some e)
    | (none, cpu) => (cpu, none)
  else if funct3 = 0x1 then
    match cpu.store address 16 (cpu.regs rs2) with
    | (some e, cpu) => (cpu, some e)
    | (none, cpu) => (cpu, none)
  else if funct3 = 0x2 then
    match cpu.store address 32 (cpu.regs rs2) with
    | (some e, cpu) => (cpu, some e)
    | (none, cpu) => (cpu, none)
  else if funct3 = 0x3 then
    match cpu.store address 64 (cpu.regs rs2) with
    | (some e, cpu) => (cpu, some e)
    | (none, cpu) => (cpu, none)
  else (cpu, none)

/-- Opcode `0x2f`, the RV64A subset: AMOADD.W/D and AMOSWAP.W/D as load,
compute, store; `rd` receives the pre-update memory value. -/
def execAmo (cpu : Cpu) (rd rs1 rs2 funct3 funct7 : Nat) : Cpu × Option Exception :=
  let funct5 := (funct7 &&& 0x7c) >>> 2
  if funct3 = 0x2 ∧ funct5 = 0x00 then
    match cpu.load (cpu.regs rs1) 32 with
    | (.error e, cpu) => (cpu, some e)
    | (.ok tmp, cpu) =>
      match cpu.store (cpu.regs rs1) 32 (wadd tmp (cpu.regs rs2)) with
      | (some e, cpu) => (cpu, some e)
      | (none, cpu) => (cpu.setReg rd tmp, none)
  else if funct3 = 0x3 ∧ funct5 = 0x00 then
    match cpu.load (cpu.regs rs1) 64 with
    | (.error e, cpu) => (cpu, some e)
    | (.ok tmp, cpu) =>
      match cpu.store (cpu.regs rs1) 64 (wadd tmp (cpu.regs rs2)) with
      | (some e, cpu) => (cpu, some e)
      | (none, cpu) => (cpu.setReg rd tmp, none)
  else if funct3 = 0x2 ∧ funct5 = 0x01 then
    match cpu.load (cpu.regs rs1) 32 with
    | (.error e, cpu) => (cpu, some e)
    | (.ok tmp, cpu) =>
      match cpu.store (cpu.regs rs1) 32 (cpu.regs rs2) with
      | (some e, cpu) => (cpu, some e)
      | (none, cpu) => (cpu.setReg rd tmp, none)
  else if funct3 = 0x3 ∧ funct5 = 0x01 then
    match cpu.load (cpu.regs rs1) 64 with
    | (.error e, cpu) => (cpu, some e)
    | (.ok tmp, cpu) =>
      match cpu.store (cpu.regs rs1) 64 (cpu.regs rs2) with
      | (some e, cpu) => (cpu, some e)
      | (none, cpu) => (cpu.setReg rd tmp, none)
  else (cpu, some .illegalInstruction)

/-- Opcode `0x33`, OP.  DIVU with a zero divisor writes all ones. -/
def execOp (cpu : Cpu) (rd rs1 rs2 funct3 funct7 : Nat) : Cpu × Option Exception :=
  let shamt := cpu.regs rs2 &&& 0x3f
  if funct3 = 0x0 ∧ funct7 = 0x00 then
    (cpu.setReg rd (wadd (cpu.regs rs1) (cpu.regs rs2)), none)
  else if funct3 = 0x0 ∧ funct7 = 0x01 then
    (cpu.setReg rd (wmul (cpu.regs rs1) (cpu.regs rs2)), none)
  else if funct3 = 0x0 ∧ funct7 = 0x20 then
    (cpu.setReg rd (wsub (cpu.regs rs1) (cpu.regs rs2)), none)
  else if funct3 = 0x1 ∧ funct7 = 0x00 then (cpu.setReg rd (wshl (cpu.regs rs1) shamt), none)
  else if funct3 = 0x2 ∧ funct7 = 0x00 then
    (cpu.setReg rd (if toI64 (cpu.regs rs1) < toI64 (cpu.regs rs2) then 1 else 0), none)
  else if funct3 = 0x3 ∧ funct7 = 0x00 then
    (cpu.setReg rd (if cpu.regs rs1 < cpu.regs rs2 then 1 else 0), none)
  else if funct3 = 0x4 ∧ funct7 = 0x00 then
    (cpu.setReg rd (cpu.regs rs1 ^^^ cpu.regs rs2), none)
  else if funct3 = 0x5 ∧ funct7 = 0x00 then (cpu.setReg rd (wshr (cpu.regs rs1) shamt), none)
  else if funct3 = 0x5 ∧ funct7 = 0x01 then
    (cpu.setReg rd
      (if cpu.regs rs2 = 0 then 0xffffffffffffffff else cpu.regs rs1 / cpu.regs rs2), none)
  else if funct3 = 0x5 ∧ funct7 = 0x20 then (cpu.setReg rd (sra64 (cpu.regs rs1) shamt), none)
  else if funct3 = 0x6 ∧ funct7 = 0x00 then
    (cpu.setReg rd (cpu.regs rs1 ||| cpu.regs rs2), none)
  else if funct3 = 0x7 ∧ funct7 = 0x00 then
    (cpu.setReg rd (cpu.regs rs1 &&& cpu.regs rs2), none)
  else (cpu, some .illegalInstruction)

/-- Opcode `0x3b`, OP-32.  The zero-divisor guards test the full 64-bit
`regs[rs2]`: DIVUW writes all ones there and REMUW writes the unmodified
64-bit dividend.  (When the guard value is nonzero but its low 32 bits are
zero, the Rust `u32` division panics; `Nat` division yields 0 there, and no
claim depends on that corner.) -/
def execOp32 (cpu : Cpu) (rd rs1 rs2 funct3 funct7 : Nat) : Cpu × Option Exception :=
  let shamt := cpu.regs rs2 &&& 0x1f
  if funct3 = 0x0 ∧ funct7 = 0x00 then
    (cpu.setReg rd (sext 32 (wadd (cpu.regs rs1) (cpu.regs rs2))), none)
  else if funct3 = 0x0 ∧ funct7 = 0x20 then
    (cpu.setReg rd (sext 32 (wsub (cpu.regs rs1) (cpu.regs rs2))), none)
  else if funct3 = 0x1 ∧ funct7 = 0x00 then
    (cpu.setReg rd (sext 32 (((cpu.regs rs1 % 2 ^ 32) <<< (shamt % 32)) % 2 ^ 32)), none)
  else if funct3 = 0x5 ∧ funct7 = 0x00 then
    (cpu.setReg rd (sext 32 ((cpu.regs rs1 % 2 ^ 32) >>> (shamt % 32))), none)
  else if funct3 = 0x5 ∧ funct7 = 0x01 then
    (cpu.setReg rd
      (if cpu.regs rs2 = 0 then 0xffffffffffffffff
       else sext 32 ((cpu.regs rs1 % 2 ^ 32) / (cpu.regs rs2 % 2 ^ 32))), none)
  else if funct3 = 0x5 ∧ funct7 = 0x20 then
    (cpu.setReg rd (sext 32 (sra32 (cpu.regs rs1) shamt)), none)
  else if funct3 = 0x7 ∧ funct7 = 0x01 then
    (cpu.setReg rd
      (if cpu.regs rs2 = 0 then cpu.regs rs1
       else sext 32 ((cpu.regs rs1 % 2 ^ 32) % (cpu.regs rs2 % 2 ^ 32))), none)
  else (cpu, some .illegalInstruction)

/-- Opcode `0x63`, the branches; targets are `(pc - 4) + imm`. -/
def execBranch (cpu : Cpu) (inst rs1 rs2 funct3 : Nat) : Cpu × Option Exception :=
  let imm := (sra64 (sext 32 (inst &&& 0x80000000)) 19) ||| ((inst >>> 20) &&& 0x7e0) |||
    ((inst &&& 0x80) <<< 4) ||| ((inst >>> 7) &&& 0x1e)
  let target := wadd (wsub cpu.pc 4) imm
  if funct3 = 0x0 then (if cpu.regs rs1 = cpu.regs rs2 then cpu.setPc target else cpu, none)
  else if funct3 = 0x1 then
    (if cpu.regs rs1 ≠ cpu.regs rs2 then cpu.setPc target else cpu, none)
  else if funct3 = 0x4 then
    (if toI64 (cpu.regs rs1) < toI64 (cpu.regs rs2) then cpu.setPc target else cpu, none)
  else if funct3 = 0x5 then
    (if toI64 (cpu.regs rs2) ≤ toI64 (cpu.regs rs1) then cpu.setPc target else cpu, none)
  else if funct3 = 0x6 then
    (if cpu.regs rs1 < cpu.regs rs2 then cpu.setPc target else cpu, none)
  else if funct3 = 0x7 then
    (if cpu.regs rs2 ≤ cpu.regs rs1 then cpu.setPc target else cpu, none)
  else (cpu, some .illegalInstruction)

/-- Opcode `0x67`, JALR: `rd` receives the post-increment `pc`. -/
def execJalr (cpu : Cpu) (inst rd rs1 : Nat) : Cpu × Option Exception :=
  let t := cpu.pc
  let imm := sra64 (sext 32 (inst &&& 0xfff00000)) 20
  let cpu := cpu.setPc (wadd (cpu.regs rs1) imm &&& not64 1)
  (cpu.setReg rd t, none)

/-- Opcode `0x6f`, JAL: `rd` receives the post-increment `pc` and the jump
is relative to `pc - 4`. -/
def execJal (cpu : Cpu) (inst rd : Nat) : Cpu × Option Exception :=
  let cpu := cpu.setReg rd cpu.pc
  let imm := (sra64 (sext 32 (inst &&& 0x80000000)) 11) ||| ((inst >>> 20) &&& 0x7fe) |||
    ((inst >>> 9) &&& 0x800) ||| (inst &&& 0xff000)
  (cpu.setPc (wadd (wsub cpu.pc 4) imm), none)

/-- Opcode `0x73`, SYSTEM: ECALL, EBREAK, SRET, MRET, SFENCE.VMA and the six
CSR instructions.  MRET decodes MPP through the source's match
(`2 => Machine, 1 => Supervisor, _ => User`). -/
def execSystem (cpu : Cpu) (inst rd rs1 rs2 funct3 funct7 : Nat) : Cpu × Option Exception :=
  let address := (inst &&& 0xfff00000) >>> 20
  if funct3 = 0x0 then
    if rs2 = 0x0 ∧ funct7 = 0x0 then
      match cpu.mode with
      | .user => (cpu, some .environmentCallFromUMode)
      | .supervisor => (cpu, some .environmentCallFromSMode)
      | .machine => (cpu, some .environmentCallFromMMode)
    else if rs2 = 0x1 ∧ funct7 = 0x0 then (cpu, some .breakpoint)
    else if rs2 = 0x2 ∧ funct7 = 0x8 then
      let cpu := cpu.setPc (cpu.load_csr SEPC)
      let sstatus := cpu.load_csr SSTATUS
      let cpu := { cpu with mode := if (sstatus >>> 8) &&& 1 = 1 then .supervisor else .user }
      let cpu :=
        if (sstatus >>> 5) &&& 1 = 1 then cpu.store_csr SSTATUS (sstatus ||| (1 <<< 1))
        else cpu.store_csr SSTATUS (sstatus &&& not64 (1 <<< 1))
      let cpu := cpu.store_csr SSTATUS (cpu.load_csr SSTATUS ||| (1 <<< 5))
      let cpu := cpu.store_csr SSTATUS (cpu.load_csr SSTATUS &&& not64 (1 <<< 8))
      (cpu, none)
    else if rs2 = 0x2 ∧ funct7 = 0x18 then
      let cpu := cpu.setPc (cpu.load_csr MEPC)
      let mstatus := cpu.load_csr MSTATUS
      let mpp := (mstatus >>> 11) &&& 0b11
      let newMode : Mode := if mpp = 2 then .machine else if mpp = 1 then .supervisor else .user
      let cpu := { cpu with mode := newMode }
      let cpu :=
        if (mstatus >>> 7) &&& 1 = 1 then cpu.store_csr MSTATUS (mstatus ||| (1 <<< 3))
        else cpu.store_csr MSTATUS (mstatus &&& not64 (1 <<< 3))
      let cpu := cpu.store_csr MSTATUS (cpu.load_csr MSTATUS ||| (1 <<< 7))
      let cpu := cpu.store_csr MSTATUS (cpu.load_csr MSTATUS &&& not64 (3 <<< 11))
      (cpu, none)
    else if funct7 = 0x9 then (cpu, none)
    else (cpu, some .illegalInstruction)
  else if funct3 = 0x1 then
    let tmp := cpu.load_csr address
    let cpu := cpu.store_csr address (cpu.regs rs1)
    let cpu := cpu.setReg rd tmp
    (cpu.update_paging address, none)
  else if funct3 = 0x2 then
    let tmp := cpu.load_csr address
    let cpu := cpu.store_csr address (tmp ||| cpu.regs rs1)
    let cpu := cpu.setReg rd tmp
    (cpu.update_paging address, none)
  else if funct3 = 0x3 then
    let tmp := cpu.load_csr address
    let cpu := cpu.store_csr address (tmp &&& not64 (cpu.regs rs1))
    let cpu := cpu.setReg rd tmp
    (cpu.update_paging address, none)
  else if funct3 = 0x5 then
    let uimm := rs1
    let cpu := cpu.setReg rd (cpu.load_csr address)
    let cpu := cpu.store_csr address uimm
    (cpu.update_paging address, none)
  else if funct3 = 0x6 then
    let uimm := rs1
    let tmp := cpu.load_csr address
    let cpu := cpu.store_csr address (tmp ||| uimm)
    let cpu := cpu.setReg rd tmp
    (cpu.update_paging address, none)
  else if funct3 = 0x7 then
    let uimm := rs1
    let tmp := cpu.load_csr address
    let cpu := cpu.store_csr address (tmp &&& not64 uimm)
    let cpu := cpu.setReg rd tmp
    (cpu.update_paging address, none)
  else (cpu, some .illegalInstruction)

/-- `Cpu::decode_execute`: decode the fields, reset `x0` to zero, then
dispatch on the opcode. -/
def Cpu.decode_execute (cpu : Cpu) (inst : Nat) : Cpu × Option Exception :=
  let opcode := inst &&& 0x0000007f
  let rd := (inst &&& 0x00000f80) >>> 7
  let rs1 := (inst &&& 0x000f8000) >>> 15
  let rs2 := (inst &&& 0x01f00000) >>> 20
  let funct3 := (inst &&& 0x00007000) >>> 12
  let funct7 := (inst &&& 0xfe000000) >>> 25
  let cpu := { cpu with regs := upd cpu.regs 0 0 }
  if opcode = 0x03 then execLoad cpu inst rd rs1 funct3
  else if opcode = 0x0f then
    if funct3 = 0x0 then (cpu, none) else (cpu, some .illegalInstruction)
  else if opcode = 0x13 then execOpImm cpu inst rd rs1 funct3 funct7
  else if opcode = 0x17 then execAuipc cpu inst rd
  else if opcode = 0x1b then execOpImm32 cpu inst rd rs1 funct3 funct7
  else if opcode = 0x23 then execStore cpu inst rs1 rs2 funct3
  else if opcode = 0x2f then execAmo cpu rd rs1 rs2 funct3 funct7
  else if opcode = 0x33 then execOp cpu rd rs1 rs2 funct3 funct7
  else if opcode = 0x37 then (cpu.setReg rd (sext 32 (inst &&& 0xfffff000)), none)
  else if opcode = 0x3b then execOp32 cpu rd rs1 rs2 funct3 funct7
  else if opcode = 0x63 then execBranch cpu inst rs1 rs2 funct3
  else if opcode = 0x67 then execJalr cpu inst rd rs1
  else if opcode = 0x6f then execJal cpu inst rd
  else if opcode = 0x73 then execSystem cpu inst rd rs1 rs2 funct3 funct7
  else (cpu, some .illegalInstruction)

/-! ## VirtIO disk access and the interrupt poll -/

/-- A bus load whose failure the source unwraps with `expect` (a panic);
a failed read contributes 0 here. -/
def Cpu.bus_load_or0 (cpu : Cpu) (addr size : Nat) : Nat × Cpu :=
  match cpu.bus.load addr size with
  | .ok (v, b) => (v, { cpu with bus := b })
  | .error _ => (0, cpu)

/-- A bus store whose failure the source unwraps with `expect` (a panic);
a failed write is dropped here. -/
def Cpu.bus_store_or_skip (cpu : Cpu) (addr size value : Nat) : Cpu :=
  match cpu.bus.store addr size value with
  | .ok b => { cpu with bus := b }
  | .error _ => cpu

/-- Modelled from the spec: `virtio.rs` is absent from `src/`.  Spec
section 4.4: read the descriptor table at `queue_pfn * PAGE_SIZE`, walk the
descriptor chain, decode the request type (read = 0 / write = 1) and the
sector from the header, then transfer 512 bytes between the guest buffer
and the backing image byte-wise through the bus; on a read the image is
copied to memory, on a write memory is copied to the image. -/
def Virtio.disk_access (cpu : Cpu) : Cpu :=
  let desc := cpu.bus.virtio.queue_pfn * PAGE_SIZE
  let p1 := cpu.bus_load_or0 desc 64
  let hdrAddr := p1.1
  let p2 := p1.2.bus_load_or0 hdrAddr 32
  let blkType := p2.1
  let p3 := p2.2.bus_load_or0 (hdrAddr + 8) 64
  let sector := p3.1
  let p4 := p3.2.bus_load_or0 (desc + 16) 64
  let bufAddr := p4.1
  let cpu := p4.2
  if blkType = 1 then
    (List.range 512).foldl
      (fun cpu i =>
        let p := cpu.bus_load_or0 (bufAddr + i) 8
        let cpu := p.2
        { cpu with bus.virtio.image := upd cpu.bus.virtio.image (sector * 512 + i) p.1 })
      cpu
  else
    (List.range 512).foldl
      (fun cpu i => cpu.bus_store_or_skip (bufAddr + i) 8 (cpu.bus.virtio.image (sector * 512 + i)))
      cpu

/-- The `irq != 0` tail of `check_pending_interrupt`: write the IRQ number
to `PLIC_SCLAIM` (unwrapped with `expect` in the source) and assert
`mip.SEIP`. -/
def Cpu.plic_claim (cpu : Cpu) (irq : Nat) : Cpu :=
  let bus :=
    match cpu.bus.store PLIC_SCLAIM 32 irq with
    | .ok b => b
    | .error _ => cpu.bus
  let cpu := { cpu with bus := bus }
  cpu.store_csr MIP (cpu.load_csr MIP ||| MIP_SEIP)

/-- The device-polling part of `check_pending_interrupt` (`cpu.rs` lines
132-150): consume the UART flag, else consume the VirtIO flag and run the
disk access; a raised IRQ is claimed in the PLIC and sets `mip.SEIP`. -/
def Cpu.interrupt_plumbing (cpu : Cpu) : Cpu :=
  let pu := cpu.bus.uart.is_interrupting
  let cpu := { cpu with bus.uart := pu.2 }
  if pu.1 then cpu.plic_claim UART_IRQ
  else
    let pv := cpu.bus.virtio.is_interrupting
    let cpu := { cpu with bus.virtio := pv.2 }
    if pv.1 then (Virtio.disk_access cpu).plic_claim VIRTIO_IRQ
    else cpu

/-- The selection part of `check_pending_interrupt` (`cpu.rs` lines
152-178): the first pending and enabled interrupt in the order MEI, MSI,
MTI, SEI, SSI, STI is taken and its `mip` bit cleared. -/
def Cpu.take_interrupt (cpu : Cpu) : Option Interrupt × Cpu :=
  let pending := cpu.load_csr MIE &&& cpu.load_csr MIP
  if pending &&& MIP_MEIP ≠ 0 then
    (some .machineExternalInterrupt, cpu.store_csr MIP (cpu.load_csr MIP &&& not64 MIP_MEIP))
  else if pending &&& MIP_MSIP ≠ 0 then
    (some .machineSoftwareInterrupt, cpu.store_csr MIP (cpu.load_csr MIP &&& not64 MIP_MSIP))
  else if pending &&& MIP_MTIP ≠ 0 then
    (some .machineTimerInterrupt, cpu.store_csr MIP (cpu.load_csr MIP &&& not64 MIP_MTIP))
  else if pending &&& MIP_SEIP ≠ 0 then
    (some .supervisorExternalInterrupt, cpu.store_csr MIP (cpu.load_csr MIP &&& not64 MIP_SEIP))
  else if pending &&& MIP_SSIP ≠ 0 then
    (some .supervisorSoftwareInterrupt, cpu.store_csr MIP (cpu.load_csr MIP &&& not64 MIP_SSIP))
  else if pending &&& MIP_STIP ≠ 0 then
    (some .supervisorTimerInterrupt, cpu.store_csr MIP (cpu.load_csr MIP &&& not64 MIP_STIP))
  else (none, cpu)

/-- `Cpu::check_pending_interrupt`: in Machine mode return `None` early
when `mstatus.MIE` is clear, in Supervisor mode when `sstatus.SIE` is
clear; User mode applies no gate.  Otherwise poll the devices and select. -/
def Cpu.check_pending_interrupt (cpu : Cpu) : Option Interrupt × Cpu :=
  match cpu.mode with
  | .machine =>
    if (cpu.load_csr MSTATUS >>> 3) &&& 1 = 0 then (none, cpu)
    else cpu.interrupt_plumbing.take_interrupt
  | .supervisor =>
    if (cpu.load_csr SSTATUS >>> 1) &&& 1 = 0 then (none, cpu)
    else cpu.interrupt_plumbing.take_interrupt
  | .user => cpu.interrupt_plumbing.take_interrupt

/-! ## Exception trap entry (`src/exception.rs`) -/

/-- `Exception::get_trap`: deliver the exception, in Supervisor mode when
the current mode is at most Supervisor and bit `cause` of `medeleg` is set,
in Machine mode otherwise.  `epc` is `pc - 4`. -/
def Exception.get_trap (e : Exception) (cpu : Cpu) : Cpu :=
  let exception_pc := wsub cpu.pc 4
  let previous_mode := cpu.mode
  let cause := e.code
  if previous_mode.toNat ≤ Mode.supervisor.toNat ∧ (cpu.load_csr MEDELEG >>> cause) &&& 1 ≠ 0 then
    let cpu := { cpu with mode := .supervisor }
    let cpu := cpu.setPc (cpu.load_csr STVEC &&& not64 1)
    let cpu := cpu.store_csr SEPC (exception_pc &&& not64 1)
    let cpu := cpu.store_csr SCAUSE cause
    let cpu := cpu.store_csr STVAL 0
    let cpu := cpu.store_csr SSTATUS
      (if (cpu.load_csr SSTATUS >>> 1) &&& 1 = 1 then cpu.load_csr SSTATUS ||| (1 <<< 5)
       else cpu.load_csr SSTATUS &&& not64 (1 <<< 5))
    let cpu := cpu.store_csr SSTATUS (cpu.load_csr SSTATUS &&& not64 (1 <<< 1))
    match previous_mode with
    | .user => cpu.store_csr SSTATUS (cpu.load_csr SSTATUS &&& not64 (1 <<< 8))
    | _ => cpu.store_csr SSTATUS (cpu.load_csr SSTATUS ||| (1 <<< 8))
  else
    let cpu := { cpu with mode := .machine }
    let cpu := cpu.setPc (cpu.load_csr MTVEC &&& not64 1)
    let cpu := cpu.store_csr MEPC (exception_pc &&& not64 1)
    let cpu := cpu.store_csr MCAUSE cause
    let cpu := cpu.store_csr MTVAL 0
    let cpu := cpu.store_csr MSTATUS
      (if (cpu.load_csr MSTATUS >>> 3) &&& 1 = 1 then cpu.load_csr MSTATUS ||| (1 <<< 7)
       else cpu.load_csr MSTATUS &&& not64 (1 <<< 7))
    let cpu := cpu.store_csr MSTATUS (cpu.load_csr MSTATUS &&& not64 (1 <<< 3))
    cpu.store_csr MSTATUS (cpu.load_csr MSTATUS &&& not64 (0b11 <<< 11))

/-! ## Basic lemmas -/

theorem upd_self (f : Nat → Nat) (i v : Nat) : upd f i v i = v := by
  simp [upd]

theorem upd_other (f : Nat → Nat) (i v j : Nat) (h : j ≠ i) : upd f i v j = f j := by
  simp [upd, h]

theorem testBit_not64 (x k : Nat) (hk : k < 64) : (not64 x).testBit k = !x.testBit k := by
  have h1 : (2 ^ 64 - 1 : Nat).testBit k = true := by
    rw [Nat.testBit_two_pow_sub_one]; simpa using hk
  have h2 : (x % W64).testBit k = x.testBit k := by
    rw [W64, Nat.testBit_mod_two_pow]; simp [hk]
  rw [not64, Nat.testBit_xor, h1, h2, Bool.true_xor]

/-- Disjoint bit ranges make bitwise or an addition. -/
theorem lor_shift_add (a b k : Nat) (h : a < 2 ^ k) : a ||| b <<< k = 2 ^ k * b + a := by
  rw [Nat.shiftLeft_eq, Nat.lor_comm, Nat.mul_comm, ← Nat.mul_add_lt_is_or h]

theorem and_255 (x : Nat) : x &&& 255 = x % 256 := by
  have h := Nat.and_pow_two_sub_one_eq_mod x 8
  norm_num at h
  exact h

/-! ## Concrete machine states for the closed evaluations -/

/-- An all-zero RAM. -/
def mem0 : Memory := ⟨fun _ => 0⟩

/-- A quiescent bus: zero memory, idle devices, no pending interrupts. -/
def bus0 : Bus :=
  { clint := ⟨0, 0, 0⟩
    memory := mem0
    plic := ⟨fun _ => 0⟩
    uart := ⟨fun _ => 0, false⟩
    virtio := ⟨0, 0, 0, false, fun _ => 0⟩ }

/-- The reset-like state: zero registers and CSRs, Machine mode, paging off. -/
def cpu0 : Cpu :=
  { regs := fun _ => 0
    pc := MEMORY_BASE
    bus := bus0
    csr := fun _ => 0
    mode := .machine
    enable_paging := false
    page_table := 0 }

/-! ## Claim C6: RAM accesses of an unsupported size -/

/-- C6: a RAM load of any size other than 8/16/32/64 bits returns
`LoadAddressMisaligned`; a RAM store of such a size also returns
`LoadAddressMisaligned` — the source's store arm reuses the load-side
exception (memory.rs line 37) where the claim says
`StoreAMOAddressMisaligned` — and the error return carries no write, so
memory is unchanged. -/
theorem honga_c6_bad_size (m : Memory) (a s v : Nat)
    (h8 : s ≠ 8) (h16 : s ≠ 16) (h32 : s ≠ 32) (h64 : s ≠ 64) :
    m.load a s = .error .loadAddressMisaligned ∧
    m.store a s v = .error .loadAddressMisaligned := by
  constructor <;> simp [Memory.load, Memory.store, h8, h16, h32, h64]

theorem honga_c6_witness :
    mem0.load MEMORY_BASE 12 = .error .loadAddressMisaligned ∧
    mem0.store MEMORY_BASE 12 0 = .error .loadAddressMisaligned :=
  honga_c6_bad_size mem0 MEMORY_BASE 12 0 (by decide) (by decide) (by decide) (by decide)

/-! ## Claim C8: the `sie` alias of `mie` -/

/-- C8: reading `sie` through `load_csr` returns `mie & mideleg`; writing
`v` to `sie` through `store_csr` sets `mie` to
`(mie & !mideleg) | (v & mideleg)`, so the delegated bits of `mie` take the
bits of `v` and the non-delegated bits of `mie` are unchanged; no CSR slot
other than `mie` — in particular not a separate `sie` slot — is modified. -/
theorem honga_c8_sie_is_mie_alias (cpu : Cpu) (v : Nat) :
    cpu.load_csr SIE = cpu.load_csr MIE &&& cpu.load_csr MIDELEG ∧
    (cpu.store_csr SIE v).csr MIE =
      (cpu.csr MIE &&& not64 (cpu.csr MIDELEG)) ||| (v &&& cpu.csr MIDELEG) ∧
    (∀ k, k < 64 → (cpu.csr MIDELEG).testBit k = false →
      ((cpu.store_csr SIE v).csr MIE).testBit k = (cpu.csr MIE).testBit k) ∧
    (∀ k, k < 64 → (cpu.csr MIDELEG).testBit k = true →
      ((cpu.store_csr SIE v).csr MIE).testBit k = v.testBit k) ∧
    ∀ a, a ≠ MIE → (cpu.store_csr SIE v).csr a = cpu.csr a := by
  refine ⟨?_, ?_, ?_, ?_, ?_⟩
  · simp [Cpu.load_csr, SIE, MIE, MIDELEG]
  · simp [Cpu.store_csr, upd]
  · intro k hk hm
    simp [Cpu.store_csr, upd, Nat.testBit_or, Nat.testBit_and, testBit_not64, hk, hm]
  · intro k hk hm
    simp [Cpu.store_csr, upd, Nat.testBit_or, Nat.testBit_and, testBit_not64, hk, hm]
  · intro a ha
    simp [Cpu.store_csr, upd, ha]

/-! ## Claim C1: translation identity -/

/-- C1 (amended): `translate` is the identity and raises nothing exactly
when paging is disabled; the privilege mode is not consulted, so Machine
mode does not bypass an enabled Sv39 translation. -/
theorem honga_c1_identity_when_paging_off (cpu : Cpu) (addr : Nat) (acc : AccessType)
    (h : cpu.enable_paging = false) :
    cpu.translate addr acc = (.ok addr, cpu) := by
  simp [Cpu.translate, h]

theorem honga_c1_witness : cpu0.translate 0x80001234 .load = (.ok 0x80001234, cpu0) :=
  honga_c1_identity_when_paging_off cpu0 0x80001234 .load rfl

/-- A Machine-mode hart with Sv39 paging enabled and the page table rooted
at the bottom of the all-zero RAM. -/
def cpuPaging : Cpu := { cpu0 with enable_paging := true, page_table := MEMORY_BASE }

/-- C1 counterexample: in Machine mode with `satp`-enabled paging,
`translate` is not the identity and can page-fault: the all-zero root PTE
is invalid, so a load access raises `LoadPageFault` instead of returning
the input address. -/
theorem honga_c1_machine_counterexample :
    cpuPaging.mode = Mode.machine ∧ cpuPaging.enable_paging = true ∧
    (cpuPaging.translate 0x1000 .load).1 = .error .loadPageFault :=
  ⟨rfl, rfl, rfl⟩

/-! ## Claim C2: MRET MPP decoding -/

/-- A Machine-mode state whose `mstatus.MPP` field holds the architectural
Machine encoding `0b11` (`mstatus = 0x1800`). -/
def cpuMpp3 : Cpu := { cpu0 with csr := upd cpu0.csr MSTATUS 0x1800 }

/-- C2: executing MRET (0x30200073) with `mstatus.MPP = 0b11` puts the hart
in User mode, not Machine: the source decodes MPP by
`2 => Machine, 1 => Supervisor, _ => User` (cpu.rs lines 748-752), so the
architectural encoding 11 falls through to User. -/
theorem honga_c2_mret_mpp_decode :
    (cpuMpp3.decode_execute 0x30200073).1.mode = Mode.user := by decide

/-! ## Claim C4: the zero register -/

/-- C4 counterexample: `ADDI x0, x0, 1` (encoding 0x00100013) leaves
`regs[0] = 1` immediately after `decode_execute` returns; the reset of `x0`
happens at the start of the next `decode_execute`, not at the end of this
one. -/
theorem honga_c4_counterexample :
    (cpu0.decode_execute 0x00100013).1.regs 0 = 1 := by decide

/-! ## Claim C9: RAM round-trips -/

/-- Appending the next byte of `v` to its low `k` bits. -/
theorem byte_step (v k : Nat) :
    v % 2 ^ k ||| (((v >>> k) &&& 0xff) <<< k) = v % 2 ^ (k + 8) := by
  rw [and_255, Nat.shiftRight_eq_div_pow,
    lor_shift_add _ _ _ (Nat.mod_lt _ (Nat.two_pow_pos k)), pow_add, Nat.mod_mul]
  norm_num
  ring

theorem byte_assemble_2 (v : Nat) :
    (v &&& 0xff) ||| (((v >>> 8) &&& 0xff) <<< 8) = v % 2 ^ 16 := by
  have h8 : v &&& 0xff = v % 2 ^ 8 := by rw [and_255]; norm_num
  rw [h8, byte_step v 8]

theorem byte_assemble_4 (v : Nat) :
    (v &&& 0xff) ||| (((v >>> 8) &&& 0xff) <<< 8) ||| (((v >>> 16) &&& 0xff) <<< 16) |||
      (((v >>> 24) &&& 0xff) <<< 24) = v % 2 ^ 32 := by
  have h8 : v &&& 0xff = v % 2 ^ 8 := by rw [and_255]; norm_num
  rw [h8, byte_step v 8, show (8 : Nat) + 8 = 16 from rfl, byte_step v 16,
    show (16 : Nat) + 8 = 24 from rfl, byte_step v 24]

theorem byte_assemble_8 (v : Nat) :
    (v &&& 0xff) ||| (((v >>> 8) &&& 0xff) <<< 8) ||| (((v >>> 16) &&& 0xff) <<< 16) |||
      (((v >>> 24) &&& 0xff) <<< 24) ||| (((v >>> 32) &&& 0xff) <<< 32) |||
      (((v >>> 40) &&& 0xff) <<< 40) ||| (((v >>> 48) &&& 0xff) <<< 48) |||
      (((v >>> 56) &&& 0xff) <<< 56) = v % 2 ^ 64 := by
  have h8 : v &&& 0xff = v % 2 ^ 8 := by rw [and_255]; norm_num
  rw [h8, byte_step v 8, show (8 : Nat) + 8 = 16 from rfl, byte_step v 16,
    show (16 : Nat) + 8 = 24 from rfl, byte_step v 24,
    show (24 : Nat) + 8 = 32 from rfl, byte_step v 32,
    show (32 : Nat) + 8 = 40 from rfl, byte_step v 40,
    show (40 : Nat) + 8 = 48 from rfl, byte_step v 48,
    show (48 : Nat) + 8 = 56 from rfl, byte_step v 56,
    show (56 : Nat) + 8 = 64 from rfl]

/-- C9: for every RAM address in bounds for the size — byte-granular, so
unaligned addresses within a 64-bit window are included — `Memory::store`
of a 64-bit value followed by `Memory::load` at the same address and size
returns the value truncated to the low k bits. -/
theorem honga_c9_roundtrip (m : Memory) (a v : Nat)
    (hbase : MEMORY_BASE ≤ a) (hv : v < W64) :
    (a + 1 ≤ MEMORY_BASE + MEMORY_SIZE →
      ((m.store a 8 v).bind fun m2 => m2.load a 8) = .ok (v % 2 ^ 8)) ∧
    (a + 2 ≤ MEMORY_BASE + MEMORY_SIZE →
      ((m.store a 16 v).bind fun m2 => m2.load a 16) = .ok (v % 2 ^ 16)) ∧
    (a + 4 ≤ MEMORY_BASE + MEMORY_SIZE →
      ((m.store a 32 v).bind fun m2 => m2.load a 32) = .ok (v % 2 ^ 32)) ∧
    (a + 8 ≤ MEMORY_BASE + MEMORY_SIZE →
      ((m.store a 64 v).bind fun m2 => m2.load a 64) = .ok (v % 2 ^ 64)) := by
  have hb : ∀ {β : Type} (x : Memory) (f : Memory → Except Exception β),
      (Except.ok (ε := Exception) x).bind f = f x := fun _ _ => rfl
  refine ⟨fun _ => ?_, fun _ => ?_, fun _ => ?_, fun _ => ?_⟩
  · rw [show m.store a 8 v = .ok (m.store_8bits a v) from by simp [Memory.store], hb]
    rw [show (m.store_8bits a v).load a 8 = .ok ((m.store_8bits a v).load_8bits a) from by
      simp [Memory.load]]
    simp only [Memory.store_8bits, Memory.load_8bits, upd_self]
    norm_num
  · rw [show m.store a 16 v = .ok (m.store_16bits a v) from by simp [Memory.store], hb]
    rw [show (m.store_16bits a v).load a 16 = .ok ((m.store_16bits a v).load_16bits a) from by
      simp [Memory.load]]
    simp [Memory.store_16bits, Memory.load_16bits, upd]
    exact byte_assemble_2 v
  · rw [show m.store a 32 v = .ok (m.store_32bits a v) from by simp [Memory.store], hb]
    rw [show (m.store_32bits a v).load a 32 = .ok ((m.store_32bits a v).load_32bits a) from by
      simp [Memory.load]]
    simp [Memory.store_32bits, Memory.load_32bits, upd]
    exact byte_assemble_4 v
  · rw [show m.store a 64 v = .ok (m.store_64bits a v) from by simp [Memory.store], hb]
    rw [show (m.store_64bits a v).load a 64 = .ok ((m.store_64bits a v).load_64bits a) from by
      simp [Memory.load]]
    simp [Memory.store_64bits, Memory.load_64bits, upd]
    exact byte_assemble_8 v

theorem honga_c9_witness :
    ((mem0.store 0x80000001 16 0x1234).bind fun m2 => m2.load 0x80000001 16) =
      .ok (0x1234 % 2 ^ 16) :=
  (honga_c9_roundtrip mem0 0x80000001 0x1234 (by decide) (by decide)).2.1 (by decide)

/-! ## Register-file preservation of the memory path

Bus accesses thread the CPU only through its `bus` field; the register
file is untouched.  These lemmas support the `x0` invariant. -/

theorem pt_walk_snd_regs (acc : AccessType) (vpn : Nat → Nat) :
    ∀ (i : Nat) (cpu : Cpu) (a : Nat), ((Cpu.pt_walk acc vpn cpu a i).2).regs = cpu.regs := by
  intro i
  induction i with
  | zero =>
    intro cpu a
    unfold Cpu.pt_walk
    rcases h : cpu.bus.load (a + vpn 0 * 8) 64 with e | ⟨pte, b⟩
    · simp [h]
    · simp only [h]
      split_ifs <;> rfl
  | succ i' ih =>
    intro cpu a
    unfold Cpu.pt_walk
    rcases h : cpu.bus.load (a + vpn (i' + 1) * 8) 64 with e | ⟨pte, b⟩
    · simp [h]
    · simp only [h]
      split_ifs <;> simp [ih]

theorem translate_snd_regs (cpu : Cpu) (addr : Nat) (acc : AccessType) :
    ((cpu.translate addr acc).2).regs = cpu.regs := by
  unfold Cpu.translate
  split_ifs with h
  · rfl
  · rcases hw : Cpu.pt_walk acc (sv39_vpn addr) cpu cpu.page_table 2 with ⟨res, cpu'⟩
    have hr := pt_walk_snd_regs acc (sv39_vpn addr) 2 cpu cpu.page_table
    rw [hw] at hr
    rcases res with e | ⟨pte, i⟩
    · simpa [hw] using hr
    · simp only [hw]
      split_ifs <;> simpa using hr

theorem cpu_load_snd_regs (cpu : Cpu) (a s : Nat) : ((cpu.load a s).2).regs = cpu.regs := by
  unfold Cpu.load
  rcases ht : cpu.translate a .load with ⟨res, cpu'⟩
  have hr := translate_snd_regs cpu a .load
  rw [ht] at hr
  rcases res with e | pa
  · simpa [ht] using hr
  · simp only [ht]
    rcases hb : cpu'.bus.load pa s with e | ⟨v, b⟩ <;> simpa [hb] using hr

theorem cpu_store_snd_regs (cpu : Cpu) (a s v : Nat) :
    ((cpu.store a s v).2).regs = cpu.regs := by
  unfold Cpu.store
  rcases ht : cpu.translate a .store with ⟨res, cpu'⟩
  have hr := translate_snd_regs cpu a .store
  rw [ht] at hr
  rcases res with e | pa
  · simpa [ht] using hr
  · simp only [ht]
    rcases hb : cpu'.bus.store pa s v with e | b <;> simpa [hb] using hr

theorem store_csr_regs (cpu : Cpu) (a v : Nat) : (cpu.store_csr a v).regs = cpu.regs := by
  unfold Cpu.store_csr
  split_ifs <;> rfl

theorem setPc_regs (cpu : Cpu) (v : Nat) : (cpu.setPc v).regs = cpu.regs := rfl

theorem update_paging_regs (cpu : Cpu) (a : Nat) : (cpu.update_paging a).regs = cpu.regs := by
  simp only [Cpu.update_paging]
  split_ifs <;> rfl

/-! ## Per-opcode preservation of `regs[0]` when the rd field is nonzero -/

theorem execLoad_regs0 (cpu : Cpu) (inst rd rs1 f3 : Nat) (h : rd ≠ 0) :
    ((execLoad cpu inst rd rs1 f3).1).regs 0 = cpu.regs 0 := by
  have h0 : (0 : Nat) ≠ rd := Ne.symm h
  simp only [execLoad]
  set A := wadd (cpu.regs rs1) (sra64 (sext 32 inst) 20) with hA
  split_ifs
  case _ =>
    rcases hl : cpu.load A 8 with ⟨res, c⟩
    have hr := cpu_load_snd_regs cpu A 8
    rw [hl] at hr
    simp at hr
    rcases res with e | v <;> simp [hl, Cpu.setReg, upd, h0, hr]
  case _ =>
    rcases hl : cpu.load A 16 with ⟨res, c⟩
    have hr := cpu_load_snd_regs cpu A 16
    rw [hl] at hr
    simp at hr
    rcases res with e | v <;> simp [hl, Cpu.setReg, upd, h0, hr]
  case _ =>
    rcases hl : cpu.load A 32 with ⟨res, c⟩
    have hr := cpu_load_snd_regs cpu A 32
    rw [hl] at hr
    simp at hr
    rcases res with e | v <;> simp [hl, Cpu.setReg, upd, h0, hr]
  case _ =>
    rcases hl : cpu.load A 64 with ⟨res, c⟩
    have hr := cpu_load_snd_regs cpu A 64
    rw [hl] at hr
    simp at hr
    rcases res with e | v <;> simp [hl, Cpu.setReg, upd, h0, hr]
  case _ =>
    rcases hl : cpu.load A 8 with ⟨res, c⟩
    have hr := cpu_load_snd_regs cpu A 8
    rw [hl] at hr
    simp at hr
    rcases res with e | v <;> simp [hl, Cpu.setReg, upd, h0, hr]
  case _ =>
    rcases hl : cpu.load A 16 with ⟨res, c⟩
    have hr := cpu_load_snd_regs cpu A 16
    rw [hl] at hr
    simp at hr
    rcases res with e | v <;> simp [hl, Cpu.setReg, upd, h0, hr]
  case _ =>
    rcases hl : cpu.load A 32 with ⟨res, c⟩
    have hr := cpu_load_snd_regs cpu A 32
    rw [hl] at hr
    simp at hr
    rcases res with e | v <;> simp [hl, Cpu.setReg, upd, h0, hr]
  case _ => rfl

theorem execOpImm_regs0 (cpu : Cpu) (inst rd rs1 f3 f7 : Nat) (h : rd ≠ 0) :
    ((execOpImm cpu inst rd rs1 f3 f7).1).regs 0 = cpu.regs 0 := by
  have h0 : (0 : Nat) ≠ rd := Ne.symm h
  simp only [execOpImm]
  split_ifs <;> first | rfl | (simp only [Cpu.setReg, upd]; rw [if_neg h0])

theorem execAuipc_regs0 (cpu : Cpu) (inst rd : Nat) (h : rd ≠ 0) :
    ((execAuipc cpu inst rd).1).regs 0 = cpu.regs 0 := by
  have h0 : (0 : Nat) ≠ rd := Ne.symm h
  simp only [execAuipc, Cpu.setReg, upd]
  rw [if_neg h0]

theorem execOpImm32_regs0 (cpu : Cpu) (inst rd rs1 f3 f7 : Nat) (h : rd ≠ 0) :
    ((execOpImm32 cpu inst rd rs1 f3 f7).1).regs 0 = cpu.regs 0 := by
  have h0 : (0 : Nat) ≠ rd := Ne.symm h
  simp only [execOpImm32]
  split_ifs <;> first | rfl | (simp only [Cpu.setReg, upd]; rw [if_neg h0])

theorem execStore_regs0 (cpu : Cpu) (inst rs1 rs2 f3 : Nat) :
    ((execStore cpu inst rs1 rs2 f3).1).regs 0 = cpu.regs 0 := by
  simp only [execStore]
  set A := wadd (cpu.regs rs1)
    (sra64 (sext 32 (inst &&& 0xfe000000)) 20 ||| (inst >>> 7) &&& 0x1f) with hA
  split_ifs
  case _ =>
    rcases hs : cpu.store A 8 (cpu.regs rs2) with ⟨res, c⟩
    have hr := cpu_store_snd_regs cpu A 8 (cpu.regs rs2)
    rw [hs] at hr
    simp at hr
    rcases res with _ | e <;> simp [hs, hr]
  case _ =>
    rcases hs : cpu.store A 16 (cpu.regs rs2) with ⟨res, c⟩
    have hr := cpu_store_snd_regs cpu A 16 (cpu.regs rs2)
    rw [hs] at hr
    simp at hr
    rcases res with _ | e <;> simp [hs, hr]
  case _ =>
    rcases hs : cpu.store A 32 (cpu.regs rs2) with ⟨res, c⟩
    have hr := cpu_store_snd_regs cpu A 32 (cpu.regs rs2)
    rw [hs] at hr
    simp at hr
    rcases res with _ | e <;> simp [hs, hr]
  case _ =>
    rcases hs : cpu.store A 64 (cpu.regs rs2) with ⟨res, c⟩
    have hr := cpu_store_snd_regs cpu A 64 (cpu.regs rs2)
    rw [hs] at hr
    simp at hr
    rcases res with _ | e <;> simp [hs, hr]
  case _ => rfl

theorem execAmo_regs0 (cpu : Cpu) (rd rs1 rs2 f3 f7 : Nat) (h : rd ≠ 0) :
    ((execAmo cpu rd rs1 rs2 f3 f7).1).regs 0 = cpu.regs 0 := by
  have h0 : (0 : Nat) ≠ rd := Ne.symm h
  simp only [execAmo]
  split_ifs
  case _ =>
    rcases hl : cpu.load (cpu.regs rs1) 32 with ⟨res, c⟩
    have hr := cpu_load_snd_regs cpu (cpu.regs rs1) 32
    rw [hl] at hr
    simp at hr
    rcases res with e | tmp
    · simp [hl, hr]
    · rcases hs : c.store (c.regs rs1) 32 (wadd tmp (c.regs rs2)) with ⟨res2, c2⟩
      have hr2 := cpu_store_snd_regs c (c.regs rs1) 32 (wadd tmp (c.regs rs2))
      rw [hs] at hr2
      simp at hr2
      rcases res2 with _ | e2 <;> simp only [hl, hs] <;> simp [Cpu.setReg, upd, h0, hr, hr2]
  case _ =>
    rcases hl : cpu.load (cpu.regs rs1) 64 with ⟨res, c⟩
    have hr := cpu_load_snd_regs cpu (cpu.regs rs1) 64
    rw [hl] at hr
    simp at hr
    rcases res with e | tmp
    · simp [hl, hr]
    · rcases hs : c.store (c.regs rs1) 64 (wadd tmp (c.regs rs2)) with ⟨res2, c2⟩
      have hr2 := cpu_store_snd_regs c (c.regs rs1) 64 (wadd tmp (c.regs rs2))
      rw [hs] at hr2
      simp at hr2
      rcases res2 with _ | e2 <;> simp only [hl, hs] <;> simp [Cpu.setReg, upd, h0, hr, hr2]
  case _ =>
    rcases hl : cpu.load (cpu.regs rs1) 32 with ⟨res, c⟩
    have hr := cpu_load_snd_regs cpu (cpu.regs rs1) 32
    rw [hl] at hr
    simp at hr
    rcases res with e | tmp
    · simp [hl, hr]
    · rcases hs : c.store (c.regs rs1) 32 (c.regs rs2) with ⟨res2, c2⟩
      have hr2 := cpu_store_snd_regs c (c.regs rs1) 32 (c.regs rs2)
      rw [hs] at hr2
      simp at hr2
      rcases res2 with _ | e2 <;> simp only [hl, hs] <;> simp [Cpu.setReg, upd, h0, hr, hr2]
  case _ =>
    rcases hl : cpu.load (cpu.regs rs1) 64 with ⟨res, c⟩
    have hr := cpu_load_snd_regs cpu (cpu.regs rs1) 64
    rw [hl] at hr
    simp at hr
    rcases res with e | tmp
    · simp [hl, hr]
    · rcases hs : c.store (c.regs rs1) 64 (c.regs rs2) with ⟨res2, c2⟩
      have hr2 := cpu_store_snd_regs c (c.regs rs1) 64 (c.regs rs2)
      rw [hs] at hr2
      simp at hr2
      rcases res2 with _ | e2 <;> simp only [hl, hs] <;> simp [Cpu.setReg, upd, h0, hr, hr2]
  case _ => rfl

theorem setReg_regs0 (cpu : Cpu) (r v : Nat) (hr : (0 : Nat) ≠ r) :
    (cpu.setReg r v).regs 0 = cpu.regs 0 := by
  simp [Cpu.setReg, upd, hr]

theorem execOp_regs0 (cpu : Cpu) (rd rs1 rs2 f3 f7 : Nat) (h : rd ≠ 0) :
    ((execOp cpu rd rs1 rs2 f3 f7).1).regs 0 = cpu.regs 0 := by
  have h0 : (0 : Nat) ≠ rd := Ne.symm h
  simp only [execOp,
    apply_ite (fun p : Cpu × Option Exception => (p.1).regs 0),
    setReg_regs0 cpu rd _ h0, ite_self]

theorem execOp32_regs0 (cpu : Cpu) (rd rs1 rs2 f3 f7 : Nat) (h : rd ≠ 0) :
    ((execOp32 cpu rd rs1 rs2 f3 f7).1).regs 0 = cpu.regs 0 := by
  have h0 : (0 : Nat) ≠ rd := Ne.symm h
  simp only [execOp32]
  split_ifs <;> first | rfl | (simp only [Cpu.setReg, upd]; rw [if_neg h0])

theorem execBranch_regs0 (cpu : Cpu) (inst rs1 rs2 f3 : Nat) :
    ((execBranch cpu inst rs1 rs2 f3).1).regs 0 = cpu.regs 0 := by
  simp only [execBranch]
  split_ifs <;> rfl

theorem execJalr_regs0 (cpu : Cpu) (inst rd rs1 : Nat) (h : rd ≠ 0) :
    ((execJalr cpu inst rd rs1).1).regs 0 = cpu.regs 0 := by
  have h0 : (0 : Nat) ≠ rd := Ne.symm h
  simp only [execJalr, Cpu.setReg, Cpu.setPc, upd]
  rw [if_neg h0]

theorem execJal_regs0 (cpu : Cpu) (inst rd : Nat) (h : rd ≠ 0) :
    ((execJal cpu inst rd).1).regs 0 = cpu.regs 0 := by
  have h0 : (0 : Nat) ≠ rd := Ne.symm h
  simp only [execJal, Cpu.setReg, Cpu.setPc, upd]
  rw [if_neg h0]

theorem execSystem_regs0 (cpu : Cpu) (inst rd rs1 rs2 f3 f7 : Nat) (h : rd ≠ 0) :
    ((execSystem cpu inst rd rs1 rs2 f3 f7).1).regs 0 = cpu.regs 0 := by
  have h0 : (0 : Nat) ≠ rd := Ne.symm h
  simp only [execSystem]
  split_ifs <;>
    first
    | rfl
    | (cases cpu.mode <;> rfl)
    | (simp only [update_paging_regs, store_csr_regs, setPc_regs, Cpu.setReg, upd]
       first | rw [if_neg h0] | rfl)

/-- C4 (amended): `x0` is reset to zero at the start of `decode_execute`,
before dispatch, so every instruction reads `x0` as 0; after
`decode_execute` returns, `regs[0] = 0` holds for every instruction whose
rd field is nonzero.  (An instruction with rd = 0, such as
`ADDI x0, x0, 1`, can leave a nonzero value in `regs[0]` until the next
`decode_execute` resets it — see the counterexample.) -/
theorem honga_c4_x0_zero (cpu : Cpu) (inst : Nat)
    (hrd : (inst &&& 0x00000f80) >>> 7 ≠ 0) :
    ((cpu.decode_execute inst).1).regs 0 = 0 := by
  have h0 : (0 : Nat) ≠ (inst &&& 0x00000f80) >>> 7 := Ne.symm hrd
  simp only [Cpu.decode_execute,
    apply_ite (fun p : Cpu × Option Exception => (p.1).regs 0),
    execLoad_regs0 _ _ _ _ _ hrd, execOpImm_regs0 _ _ _ _ _ _ hrd,
    execAuipc_regs0 _ _ _ hrd, execOpImm32_regs0 _ _ _ _ _ _ hrd,
    execStore_regs0, execAmo_regs0 _ _ _ _ _ _ hrd, execOp_regs0 _ _ _ _ _ _ hrd,
    execOp32_regs0 _ _ _ _ _ _ hrd, execBranch_regs0, execJalr_regs0 _ _ _ _ hrd,
    execJal_regs0 _ _ _ hrd, execSystem_regs0 _ _ _ _ _ _ _ hrd,
    setReg_regs0 _ _ _ h0, upd_self, ite_self]

theorem honga_c4_witness : ((cpu0.decode_execute 0x00100093).1).regs 0 = 0 :=
  honga_c4_x0_zero cpu0 0x00100093 (by decide)

/-! ## Claim C10: a gated interrupt poll has no effect -/

/-- C10: when the poll is gated — Machine mode with `mstatus.MIE = 0`, or
Supervisor mode with `sstatus.SIE = 0` — `check_pending_interrupt` returns
`None` with the CPU state returned exactly as it was: the early return
precedes the device flag consumption, the disk access, the `PLIC_SCLAIM`
write and every `mip` update, so a pending device interrupt stays
observable by a later call. -/
theorem honga_c10_gated_no_effect (cpu : Cpu)
    (h : (cpu.mode = Mode.machine ∧ (cpu.load_csr MSTATUS >>> 3) &&& 1 = 0) ∨
         (cpu.mode = Mode.supervisor ∧ (cpu.load_csr SSTATUS >>> 1) &&& 1 = 0)) :
    cpu.check_pending_interrupt = (none, cpu) := by
  rcases h with ⟨hm, hb⟩ | ⟨hm, hb⟩ <;> simp [Cpu.check_pending_interrupt, hm, hb]

theorem honga_c10_witness : cpu0.check_pending_interrupt = (none, cpu0) :=
  honga_c10_gated_no_effect cpu0 (Or.inl ⟨rfl, by decide⟩)

/-! ## Claim C3: interrupt gating and selection order -/

/-- A User-mode hart with `mie = mip = MIP_MSIP` and idle devices. -/
def cpuUser : Cpu := { cpu0 with mode := .user, csr := upd (upd cpu0.csr MIE 0x8) MIP 0x8 }

/-- C3 counterexample: in User mode an interrupt is taken — with
`mie = mip = MIP_MSIP` and idle devices, `check_pending_interrupt` returns
the machine software interrupt — where the claim says that in User mode all
interrupts are masked and none is ever taken. -/
theorem honga_c3_counterexample :
    (cpuUser.check_pending_interrupt).1 = some Interrupt.machineSoftwareInterrupt := by
  decide

/-- The selection order of `check_pending_interrupt`: MEI, MSI, MTI, SEI,
SSI, STI. -/
def interruptPriority : List Interrupt :=
  [.machineExternalInterrupt, .machineSoftwareInterrupt, .machineTimerInterrupt,
   .supervisorExternalInterrupt, .supervisorSoftwareInterrupt, .supervisorTimerInterrupt]

/-- The first interrupt in priority order whose bit is set in `pending`. -/
def selectInterrupt (pending : Nat) : Option Interrupt :=
  interruptPriority.find? (fun i => pending.testBit i.code)

theorem and_shift_one_ne (x k : Nat) : (x &&& 1 <<< k ≠ 0) ↔ x.testBit k = true := by
  rw [Nat.shiftLeft_eq, one_mul, Nat.and_two_pow]
  rcases h : x.testBit k <;> simp [h, (Nat.two_pow_pos k).ne']

/-- The selection tail of `check_pending_interrupt` phrased by the priority
list: the first pending-and-enabled interrupt is returned and its `mip` bit
(`1 <<< code`) is cleared; with none pending the state is unchanged. -/
theorem take_interrupt_eq_select (c : Cpu) :
    c.take_interrupt =
      match selectInterrupt (c.load_csr MIE &&& c.load_csr MIP) with
      | some i => (some i, c.store_csr MIP (c.load_csr MIP &&& not64 (1 <<< i.code)))
      | none => (none, c) := by
  unfold Cpu.take_interrupt
  simp only [selectInterrupt, interruptPriority, List.find?, MIP_MEIP, MIP_MSIP, MIP_MTIP,
    MIP_SEIP, MIP_SSIP, MIP_STIP]
  by_cases h11 : (c.load_csr MIE &&& c.load_csr MIP).testBit 11
  · rw [if_pos ((and_shift_one_ne _ 11).2 h11)]
    simp [Interrupt.code, h11]
  · rw [if_neg (fun hx => h11 ((and_shift_one_ne _ 11).1 hx))]
    simp only [Interrupt.code, h11, Bool.false_eq_true, if_false]
    by_cases h3 : (c.load_csr MIE &&& c.load_csr MIP).testBit 3
    · rw [if_pos ((and_shift_one_ne _ 3).2 h3)]
      simp [Interrupt.code, h3]
    · rw [if_neg (fun hx => h3 ((and_shift_one_ne _ 3).1 hx))]
      simp only [Interrupt.code, h3, Bool.false_eq_true, if_false]
      by_cases h7 : (c.load_csr MIE &&& c.load_csr MIP).testBit 7
      · rw [if_pos ((and_shift_one_ne _ 7).2 h7)]
        simp [Interrupt.code, h7]
      · rw [if_neg (fun hx => h7 ((and_shift_one_ne _ 7).1 hx))]
        simp only [Interrupt.code, h7, Bool.false_eq_true, if_false]
        by_cases h9 : (c.load_csr MIE &&& c.load_csr MIP).testBit 9
        · rw [if_pos ((and_shift_one_ne _ 9).2 h9)]
          simp [Interrupt.code, h9]
        · rw [if_neg (fun hx => h9 ((and_shift_one_ne _ 9).1 hx))]
          simp only [Interrupt.code, h9, Bool.false_eq_true, if_false]
          by_cases h1 : (c.load_csr MIE &&& c.load_csr MIP).testBit 1
          · rw [if_pos ((and_shift_one_ne _ 1).2 h1)]
            simp [Interrupt.code, h1]
          · rw [if_neg (fun hx => h1 ((and_shift_one_ne _ 1).1 hx))]
            simp only [Interrupt.code, h1, Bool.false_eq_true, if_false]
            by_cases h5 : (c.load_csr MIE &&& c.load_csr MIP).testBit 5
            · rw [if_pos ((and_shift_one_ne _ 5).2 h5)]
              simp [Interrupt.code, h5]
            · rw [if_neg (fun hx => h5 ((and_shift_one_ne _ 5).1 hx))]
              simp [Interrupt.code, h5]

/-- C3 (amended): interrupts are gated by `mstatus.MIE` in Machine mode and
by `sstatus.SIE` in Supervisor mode; in User mode no gate is applied, so
interrupts can be taken there.  When not gated, the devices are polled
(possibly setting `mip.SEIP`), and then the first interrupt in the order
MEI, MSI, MTI, SEI, SSI, STI whose bit is set in `mie & mip` is returned
with that `mip` bit cleared. -/
theorem honga_c3_gating_and_priority :
    (∀ cpu : Cpu, cpu.mode = Mode.machine → (cpu.load_csr MSTATUS >>> 3) &&& 1 = 0 →
      cpu.check_pending_interrupt = (none, cpu)) ∧
    (∀ cpu : Cpu, cpu.mode = Mode.supervisor → (cpu.load_csr SSTATUS >>> 1) &&& 1 = 0 →
      cpu.check_pending_interrupt = (none, cpu)) ∧
    (∀ cpu : Cpu,
      (cpu.mode = Mode.machine → (cpu.load_csr MSTATUS >>> 3) &&& 1 ≠ 0) →
      (cpu.mode = Mode.supervisor → (cpu.load_csr SSTATUS >>> 1) &&& 1 ≠ 0) →
      cpu.check_pending_interrupt =
        match selectInterrupt
            (cpu.interrupt_plumbing.load_csr MIE &&& cpu.interrupt_plumbing.load_csr MIP) with
        | some i =>
          (some i, cpu.interrupt_plumbing.store_csr MIP
            (cpu.interrupt_plumbing.load_csr MIP &&& not64 (1 <<< i.code)))
        | none => (none, cpu.interrupt_plumbing)) := by
  refine ⟨?_, ?_, ?_⟩
  · intro cpu hm hb
    simp [Cpu.check_pending_interrupt, hm, hb]
  · intro cpu hm hb
    simp [Cpu.check_pending_interrupt, hm, hb]
  · intro cpu hm hs
    rw [← take_interrupt_eq_select]
    rcases hmode : cpu.mode with _ | _ | _
    · simp [Cpu.check_pending_interrupt, hmode]
    · have hs' := hs hmode
      rw [Nat.and_one_is_mod] at hs'
      simp [Cpu.check_pending_interrupt, hmode, hs']
    · have hm' := hm hmode
      rw [Nat.and_one_is_mod] at hm'
      simp [Cpu.check_pending_interrupt, hmode, hm']

theorem honga_c3_witness :
    cpuUser.check_pending_interrupt =
      match selectInterrupt
          (cpuUser.interrupt_plumbing.load_csr MIE &&& cpuUser.interrupt_plumbing.load_csr MIP) with
      | some i =>
        (some i, cpuUser.interrupt_plumbing.store_csr MIP
          (cpuUser.interrupt_plumbing.load_csr MIP &&& not64 (1 <<< i.code)))
      | none => (none, cpuUser.interrupt_plumbing) :=
  honga_c3_gating_and_priority.2.2 cpuUser (by intro h; cases h) (by intro h; cases h)

/-! ## Claim C5: division by zero and OP-32 sign extension -/

theorem sext32_idem (x : Nat) : sext 32 (sext 32 x) = sext 32 x := by
  unfold sext
  simp only [W64]
  split_ifs <;> omega

/-- Registers for the division counterexamples: `x1 = 5`, `x2 = 0`. -/
def cpuDiv : Cpu := { cpu0 with regs := upd cpu0.regs 1 5 }

/-- Registers for the REMUW counterexample: `x1 = 2^32`, `x2 = 0`. -/
def cpuRem : Cpu := { cpu0 with regs := upd cpu0.regs 1 (2 ^ 32) }

/-- C5 counterexample: `DIVUW x3, x1, x2` (0x0220d1bb) with `x2 = 0` writes
all ones to `x3`, not the dividend 5; and `REMUW x3, x1, x2` (0x0220f1bb)
with `x1 = 2^32`, `x2 = 0` writes the full 64-bit dividend `2^32`, whose
32-to-64-bit sign extension is 0, so that OP-32 result is not
sign-extended. -/
theorem honga_c5_counterexample :
    (cpuDiv.decode_execute 0x0220d1bb).1.regs 3 = 0xffffffffffffffff ∧
    (cpuRem.decode_execute 0x0220f1bb).1.regs 3 = 2 ^ 32 ∧
    sext 32 (2 ^ 32) = 0 := by
  refine ⟨by decide, by decide, by decide⟩

/-- C5 (amended): DIVU with a zero divisor register writes all ones; DIVUW
with a zero divisor register also writes all ones (not the dividend); REMUW
with a zero divisor register writes the unmodified 64-bit dividend (not
sign-extended); ADDW, SUBW, SLLW, SRLW and SRAW results are sign-extended
from 32 to 64 bits, as are DIVUW and REMUW results when the low 32 bits of
the divisor are nonzero. -/
theorem honga_c5_div_and_sext :
    (∀ (cpu : Cpu) (inst : Nat),
      inst &&& 0x7f = 0x33 → (inst &&& 0x7000) >>> 12 = 0x5 →
      (inst &&& 0xfe000000) >>> 25 = 0x01 →
      upd cpu.regs 0 0 ((inst &&& 0x1f00000) >>> 20) = 0 →
      ((cpu.decode_execute inst).1).regs ((inst &&& 0xf80) >>> 7) = 0xffffffffffffffff) ∧
    (∀ (cpu : Cpu) (inst : Nat),
      inst &&& 0x7f = 0x3b → (inst &&& 0x7000) >>> 12 = 0x5 →
      (inst &&& 0xfe000000) >>> 25 = 0x01 →
      upd cpu.regs 0 0 ((inst &&& 0x1f00000) >>> 20) = 0 →
      ((cpu.decode_execute inst).1).regs ((inst &&& 0xf80) >>> 7) = 0xffffffffffffffff) ∧
    (∀ (cpu : Cpu) (inst : Nat),
      inst &&& 0x7f = 0x3b → (inst &&& 0x7000) >>> 12 = 0x7 →
      (inst &&& 0xfe000000) >>> 25 = 0x01 →
      upd cpu.regs 0 0 ((inst &&& 0x1f00000) >>> 20) = 0 →
      ((cpu.decode_execute inst).1).regs ((inst &&& 0xf80) >>> 7) =
        upd cpu.regs 0 0 ((inst &&& 0xf8000) >>> 15)) ∧
    (∀ (cpu : Cpu) (inst : Nat),
      inst &&& 0x7f = 0x3b →
      ((inst &&& 0x7000) >>> 12 = 0x0 ∧ (inst &&& 0xfe000000) >>> 25 = 0x00) ∨
        ((inst &&& 0x7000) >>> 12 = 0x0 ∧ (inst &&& 0xfe000000) >>> 25 = 0x20) ∨
        ((inst &&& 0x7000) >>> 12 = 0x1 ∧ (inst &&& 0xfe000000) >>> 25 = 0x00) ∨
        ((inst &&& 0x7000) >>> 12 = 0x5 ∧ (inst &&& 0xfe000000) >>> 25 = 0x00) ∨
        ((inst &&& 0x7000) >>> 12 = 0x5 ∧ (inst &&& 0xfe000000) >>> 25 = 0x20) →
      sext 32 (((cpu.decode_execute inst).1).regs ((inst &&& 0xf80) >>> 7)) =
        ((cpu.decode_execute inst).1).regs ((inst &&& 0xf80) >>> 7)) ∧
    (∀ (cpu : Cpu) (inst : Nat),
      inst &&& 0x7f = 0x3b →
      ((inst &&& 0x7000) >>> 12 = 0x5 ∨ (inst &&& 0x7000) >>> 12 = 0x7) →
      (inst &&& 0xfe000000) >>> 25 = 0x01 →
      upd cpu.regs 0 0 ((inst &&& 0x1f00000) >>> 20) % 2 ^ 32 ≠ 0 →
      sext 32 (((cpu.decode_execute inst).1).regs ((inst &&& 0xf80) >>> 7)) =
        ((cpu.decode_execute inst).1).regs ((inst &&& 0xf80) >>> 7)) := by
  refine ⟨?_, ?_, ?_, ?_, ?_⟩
  · intro cpu inst h1 h2 h3 h4
    simp [Cpu.decode_execute, execOp, Cpu.setReg, h1, h2, h3, h4, upd_self]
  · intro cpu inst h1 h2 h3 h4
    simp [Cpu.decode_execute, execOp32, Cpu.setReg, h1, h2, h3, h4, upd_self]
  · intro cpu inst h1 h2 h3 h4
    simp [Cpu.decode_execute, execOp32, Cpu.setReg, h1, h2, h3, h4, upd_self]
  · intro cpu inst h1 h2
    rcases h2 with ⟨ha, hb⟩ | ⟨ha, hb⟩ | ⟨ha, hb⟩ | ⟨ha, hb⟩ | ⟨ha, hb⟩ <;>
      simp [Cpu.decode_execute, execOp32, Cpu.setReg, h1, ha, hb, upd_self, sext32_idem]
  · intro cpu inst h1 h2 h3 h4
    have hz : upd cpu.regs 0 0 ((inst &&& 0x1f00000) >>> 20) ≠ 0 := by
      intro hx
      exact h4 (by rw [hx]; norm_num)
    rcases h2 with ha | ha <;>
      simp [Cpu.decode_execute, execOp32, Cpu.setReg, h1, ha, h3, hz, upd_self, sext32_idem]

theorem honga_c5_witness :
    (cpuDiv.decode_execute 0x0220d1bb).1.regs 3 = 0xffffffffffffffff :=
  honga_c5_div_and_sext.2.1 cpuDiv 0x0220d1bb (by decide) (by decide) (by decide) (by decide)

/-! ## Claim C7: exception trap entry -/

theorem shr_mod_two_eq_one_iff (x k : Nat) : ((x >>> k) % 2 = 1) ↔ x.testBit k = true := by
  rw [Nat.shiftRight_eq_div_pow, Nat.testBit_to_div_mod]
  simp

theorem testBit_and_not64_bit (x c k : Nat) (hk : k < 64) :
    (x &&& not64 c).testBit k = (x.testBit k && !c.testBit k) := by
  simp [Nat.testBit_and, testBit_not64 _ _ hk]

/-- C7: exception trap entry computes `epc = pc - 4`; when the current mode
is at most Supervisor and bit `cause` of `medeleg` is set the trap is
delivered in Supervisor mode — mode becomes Supervisor, `pc = stvec & ~1`,
`sepc = epc & ~1`, `scause = cause`, `stval = 0`, `sstatus.SPIE` takes the
prior `sstatus.SIE`, `sstatus.SIE` clears, and `sstatus.SPP` becomes 0 for
a User previous mode and 1 otherwise — else it is delivered in Machine mode
symmetrically with the m-prefixed CSRs (with both MPP bits cleared). -/
theorem honga_c7_exception_entry (cpu : Cpu) (e : Exception) :
    ((cpu.mode.toNat ≤ Mode.supervisor.toNat ∧ (cpu.load_csr MEDELEG >>> e.code) &&& 1 ≠ 0) →
      (e.get_trap cpu).mode = Mode.supervisor ∧
      (e.get_trap cpu).pc = cpu.load_csr STVEC &&& not64 1 ∧
      (e.get_trap cpu).load_csr SEPC = wsub cpu.pc 4 &&& not64 1 ∧
      (e.get_trap cpu).load_csr SCAUSE = e.code ∧
      (e.get_trap cpu).load_csr STVAL = 0 ∧
      ((e.get_trap cpu).load_csr SSTATUS).testBit 5 = (cpu.load_csr SSTATUS).testBit 1 ∧
      ((e.get_trap cpu).load_csr SSTATUS).testBit 1 = false ∧
      ((e.get_trap cpu).load_csr SSTATUS).testBit 8 =
        (if cpu.mode = Mode.user then false else true)) ∧
    (¬(cpu.mode.toNat ≤ Mode.supervisor.toNat ∧ (cpu.load_csr MEDELEG >>> e.code) &&& 1 ≠ 0) →
      (e.get_trap cpu).mode = Mode.machine ∧
      (e.get_trap cpu).pc = cpu.load_csr MTVEC &&& not64 1 ∧
      (e.get_trap cpu).load_csr MEPC = wsub cpu.pc 4 &&& not64 1 ∧
      (e.get_trap cpu).load_csr MCAUSE = e.code ∧
      (e.get_trap cpu).load_csr MTVAL = 0 ∧
      ((e.get_trap cpu).load_csr MSTATUS).testBit 7 = (cpu.load_csr MSTATUS).testBit 3 ∧
      ((e.get_trap cpu).load_csr MSTATUS).testBit 3 = false ∧
      ((e.get_trap cpu).load_csr MSTATUS).testBit 11 = false ∧
      ((e.get_trap cpu).load_csr MSTATUS).testBit 12 = false) := by
  constructor
  · intro h
    simp only [Exception.get_trap]
    rw [if_pos h]
    have d32t : (not64 2).testBit 5 = true := by decide
    have d256t : (not64 256).testBit 5 = true := by decide
    have d32f : (not64 32).testBit 5 = false := by decide
    have db32 : ((32 : Nat)).testBit 5 = true := by decide
    have db256 : ((256 : Nat)).testBit 5 = false := by decide
    rcases hm : cpu.mode with _ | _ | _ <;>
    · refine ⟨?_, ?_, ?_, ?_, ?_, ?_, ?_, ?_⟩
      · simp [hm, Cpu.store_csr, Cpu.setPc, SSTATUS, SEPC, SCAUSE, STVAL, SIE]
      · simp [hm, Cpu.store_csr, Cpu.setPc, Cpu.load_csr, SSTATUS, SEPC, SCAUSE, STVAL, SIE,
          STVEC]
      · simp [hm, Cpu.store_csr, Cpu.setPc, Cpu.load_csr, upd, SIE, SEPC, SCAUSE, STVAL, SSTATUS]
      · simp [hm, Cpu.store_csr, Cpu.setPc, Cpu.load_csr, upd, SIE, SEPC, SCAUSE, STVAL, SSTATUS]
      · simp [hm, Cpu.store_csr, Cpu.setPc, Cpu.load_csr, upd, SIE, SEPC, SCAUSE, STVAL, SSTATUS]
      · simp [hm, Cpu.store_csr, Cpu.setPc, Cpu.load_csr, upd, SIE, SEPC, SCAUSE, STVAL,
          SSTATUS]
        by_cases hb : (cpu.csr 256).testBit 1
        · rw [if_pos ((shr_mod_two_eq_one_iff _ 1).2 hb)]
          simp [hb, Nat.testBit_or, d32t, d256t, db32, db256]
        · rw [if_neg (fun hc => hb ((shr_mod_two_eq_one_iff _ 1).1 hc))]
          have hb2 : (cpu.csr 256).testBit 1 = false := by simpa using hb
          simp [hb2, Nat.testBit_and, d32f, d32t, d256t, db256]
      · simp [hm, Cpu.store_csr, Cpu.setPc, Cpu.load_csr, upd, SIE, SEPC, SCAUSE, STVAL,
          SSTATUS]
        first
        | (intro _ h2
           exact absurd h2 (by decide))
        | (exact ⟨fun _ => by decide, by decide⟩)
      · simp [hm, Cpu.store_csr, Cpu.setPc, Cpu.load_csr, upd, SIE, SEPC, SCAUSE, STVAL,
          SSTATUS]
        first
        | (intro _ _
           decide)
        | (exact Or.inr (by decide))
  · intro h
    simp only [Exception.get_trap]
    rw [if_neg h]
    refine ⟨?_, ?_, ?_, ?_, ?_, ?_, ?_, ?_, ?_⟩
    · simp [Cpu.store_csr, Cpu.setPc, MSTATUS, MEPC, MCAUSE, MTVAL, SIE]
    · simp [Cpu.store_csr, Cpu.setPc, Cpu.load_csr, MSTATUS, MEPC, MCAUSE, MTVAL, SIE, MTVEC]
    · simp [Cpu.store_csr, Cpu.setPc, Cpu.load_csr, upd, SIE, MEPC, MCAUSE, MTVAL, MSTATUS]
    · simp [Cpu.store_csr, Cpu.setPc, Cpu.load_csr, upd, SIE, MEPC, MCAUSE, MTVAL, MSTATUS]
    · simp [Cpu.store_csr, Cpu.setPc, Cpu.load_csr, upd, SIE, MEPC, MCAUSE, MTVAL, MSTATUS]
    · simp [Cpu.store_csr, Cpu.setPc, Cpu.load_csr, upd, SIE, MEPC, MCAUSE, MTVAL, MSTATUS]
      by_cases hb : (cpu.csr 768).testBit 3
      · rw [if_pos ((shr_mod_two_eq_one_iff _ 3).2 hb)]
        simp [hb, Nat.testBit_or, show (not64 8).testBit 7 = true from by decide,
          show (not64 6144).testBit 7 = true from by decide,
          show ((128 : Nat)).testBit 7 = true from by decide]
      · rw [if_neg (fun hc => hb ((shr_mod_two_eq_one_iff _ 3).1 hc))]
        have hb2 : (cpu.csr 768).testBit 3 = false := by simpa using hb
        simp [hb2, Nat.testBit_and, show (not64 128).testBit 7 = false from by decide]
    · simp [Cpu.store_csr, Cpu.setPc, Cpu.load_csr, upd, SIE, MEPC, MCAUSE, MTVAL, MSTATUS]
      intro _ h2
      exact absurd h2 (by decide)
    · simp [Cpu.store_csr, Cpu.setPc, Cpu.load_csr, upd, SIE, MEPC, MCAUSE, MTVAL, MSTATUS]
      intro _ _
      decide
    · simp [Cpu.store_csr, Cpu.setPc, Cpu.load_csr, upd, SIE, MEPC, MCAUSE, MTVAL, MSTATUS]
      intro _ _
      decide

theorem honga_c7_witness :
    (Exception.breakpoint.get_trap cpu0).mode = Mode.machine ∧
    (Exception.breakpoint.get_trap cpu0).pc = cpu0.load_csr MTVEC &&& not64 1 ∧
    (Exception.breakpoint.get_trap cpu0).load_csr MEPC = wsub cpu0.pc 4 &&& not64 1 ∧
    (Exception.breakpoint.get_trap cpu0).load_csr MCAUSE = Exception.breakpoint.code ∧
    (Exception.breakpoint.get_trap cpu0).load_csr MTVAL = 0 ∧
    ((Exception.breakpoint.get_trap cpu0).load_csr MSTATUS).testBit 7 =
      (cpu0.load_csr MSTATUS).testBit 3 ∧
    ((Exception.breakpoint.get_trap cpu0).load_csr MSTATUS).testBit 3 = false ∧
    ((Exception.breakpoint.get_trap cpu0).load_csr MSTATUS).testBit 11 = false ∧
    ((Exception.breakpoint.get_trap cpu0).load_csr MSTATUS).testBit 12 = false :=
  (honga_c7_exception_entry cpu0 .breakpoint).2 (by decide)

end Honga
